import Mathlib

/-!
Verification of the elastic-cluster (V2) reconciliation resource of the
`terraform-provider-celerdatabyoc` repository, shallowly embedded from
`celerdatabyoc/resource_elastic_cluster_v2.go`.

The embedding models:
  * the schema-level warehouse-name validator and the uniqueness check of
    `customizeEl2Diff`;
  * the precondition validator `customizeEl2Diff` as a read-only
    call-tracing computation with structured errors;
  * the create / update / delete drivers up to (and including) the
    terminal abnormal-state handling, recording the issued remote calls
    and the final persisted cluster identity;
  * the per-warehouse update operation `updateWarehouse` as a sequence of
    remote calls, each asynchronous call immediately awaited;
  * the named-warehouse diff dispatch of `resourceElasticClusterV2Update`.

Remote responses are supplied by explicit oracle records, so every
definition is executable on concrete inputs.
-/

namespace CelerdataByoc

/-- `DEFAULT_WAREHOUSE_NAME` constant of the resource file. -/
def DEFAULT_WAREHOUSE_NAME : String := "default_warehouse"

/-- `CROSSING_AZ` constant of the resource file. -/
def CROSSING_AZ : String := "crossing_az"

/-- `SPECIFY_AZ` constant of the resource file. -/
def SPECIFY_AZ : String := "specify_az"

/-- Cluster lifecycle states observed from the remote control plane
(`cluster.ClusterState*`). -/
inductive ClusterState
  | deploying
  | scaling
  | resuming
  | suspending
  | releasing
  | updating
  | running
  | suspended
  | abnormal
  | released
  deriving DecidableEq, Repr

/-- Infra-action states (`cluster.ClusterInfraActionState*`). -/
inductive InfraState
  | pending
  | ongoing
  | succeeded
  | completed
  | failed
  deriving DecidableEq, Repr

/-- Observed VM catalogue information (`cluster.VMInfo`), restricted to the
fields the resource file reads: the CPU architecture, whether storage is
instance-store, and the volume category of the first volume info entry. -/
structure VMInfo where
  arch : String
  isInstanceStore : Bool
  volumeCate : String
  deriving DecidableEq, Repr

/-- Persisted warehouse correlation record (`cluster.WarehouseExternalInfo`). -/
structure WarehouseExternalInfo where
  id : String
  isInstanceStore : Bool
  isDefaultWarehouse : Bool
  deriving DecidableEq, Repr

/-- Coordinator-node volume configuration (`coordinator_node_volume_config`
entry): `vol_size`, `iops`, `throughput`.  `none` models a key whose value is
absent (Go `nil` interface value), which compares unequal to any number. -/
structure FeVolumeConfig where
  volSize : Int
  iops : Option Int
  throughput : Option Int
  deriving DecidableEq, Repr

/-- Warehouse compute-node volume configuration
(`compute_node_volume_config` entry): `vol_number`, `vol_size`, `iops`,
`throughput`. -/
structure BeVolumeConfig where
  volNumber : Int
  volSize : Int
  iops : Option Int
  throughput : Option Int
  deriving DecidableEq, Repr

/-- Modelled from the spec: `cluster.DefaultFeVolumeMap` of the SDK package
(not under `src/`) supplies the default coordinator volume configuration used
when the configured list is empty; the schema default for the coordinator
`vol_size` is 150. -/
def DefaultFeVolumeMap : FeVolumeConfig :=
  { volSize := 150, iops := none, throughput := none }

/-- Modelled from the spec: `cluster.DefaultBeVolumeMap` of the SDK package
(not under `src/`) supplies the default warehouse volume configuration used
when the configured list is empty; the schema defaults are 2 disks of 100GB. -/
def DefaultBeVolumeMap : BeVolumeConfig :=
  { volNumber := 2, volSize := 100, iops := none, throughput := none }

/-- One declared warehouse entry (default or named), with the fields the
resource file reads out of the schema map. -/
structure WhParams where
  name : String
  computeNodeSize : String
  computeNodeCount : Int
  distributionPolicy : String
  specifyAz : String
  computeNodeVolumeConfig : Option BeVolumeConfig
  idleSuspendInterval : Int
  autoScalingPolicy : String
  expectedState : String
  computeNodeConfigs : List (String × String)
  deriving DecidableEq, Repr

/-! ## Remote calls

Every remote API interaction of the embedded code is recorded as a
`RemoteCall` value.  Await entries record the polling loops
(`WaitClusterStateChangeComplete` / `WaitClusterInfraActionStateChangeComplete`)
together with their target states. -/

/-- A remote control-plane interaction issued by the resource code. -/
inductive RemoteCall
  | getVmInfo (processType : String) (vmCate : String)
  | getNetwork (networkId : String)
  | volumeParamCheck
  | deploy
  | release (clusterId : String)
  | scaleUp
  | scaleOut
  | scaleIn
  | unlockFreeTier
  | updateResourceTags
  | updateDeploymentScripts
  | upsertLdapSslCert
  | upsertRangerCert
  | updateClusterState
  | updateIdleConfig (clusterId : String) (intervalMs : Int) (state : Bool)
  | createWarehouse (name : String)
  | releaseWarehouse (whId : String)
  | changeWarehouseDistribution (whId : String)
  | scaleWarehouseSize (whId : String) (vmCate : String)
  | scaleWarehouseNum (whId : String) (num : Int)
  | modifyClusterVolume (whId : String)
  | upsertConfig (whId : String)
  | updateWarehouseIdleConfig (whId : String) (intervalMs : Int) (state : Bool)
  | suspendWarehouse (whId : String)
  | resumeWarehouse (whId : String)
  | saveAutoScalingConfig (whId : String)
  | deleteAutoScalingConfig (whId : String)
  | awaitClusterState (targets : List ClusterState)
  | awaitInfraAction
  deriving DecidableEq, Repr

/-- Whether a remote call mutates remote cluster state.  Catalogue /
network / volume-parameter queries and state polling are read-only. -/
def RemoteCall.isMutating : RemoteCall → Bool
  | .getVmInfo _ _ => false
  | .getNetwork _ => false
  | .volumeParamCheck => false
  | .awaitClusterState _ => false
  | .awaitInfraAction => false
  | _ => true

/-! ## A call-tracing error monad

Computations of the embedding return an `Except` result together with the
list of remote calls issued so far; the list is retained on failure, matching
the Go code where calls already made stay made. -/

/-- Result of an embedded computation: outcome plus issued-call trace. -/
def CallM (ε α : Type) : Type := Except ε α × List RemoteCall

namespace CallM

/-- The trace of issued remote calls. -/
def trace {ε α : Type} (x : CallM ε α) : List RemoteCall := x.2

/-- The outcome. -/
def res {ε α : Type} (x : CallM ε α) : Except ε α := x.1

/-- Return a value, issuing no calls. -/
def pure {ε α : Type} (a : α) : CallM ε α := (Except.ok a, [])

/-- Sequence two computations; on error the remaining steps do not run. -/
def bind {ε α β : Type} (x : CallM ε α) (f : α → CallM ε β) : CallM ε β :=
  match x with
  | (Except.error e, t) => (Except.error e, t)
  | (Except.ok a, t) => ((f a).1, t ++ (f a).2)

instance instMonad {ε : Type} : Monad (CallM ε) where
  pure := CallM.pure
  bind := CallM.bind

/-- Issue one remote call. -/
def emit {ε : Type} (c : RemoteCall) : CallM ε Unit := (Except.ok (), [c])

/-- Abort with an error. -/
def fail {ε α : Type} (e : ε) : CallM ε α := (Except.error e, [])

end CallM

/-- Leading-whitespace removal on a character list. -/
def dropWhileWhitespace : List Char → List Char
  | [] => []
  | c :: rest => if c.isWhitespace then dropWhileWhitespace rest else c :: rest

/-- Embeds Go's `strings.TrimSpace` (restricted to the ASCII whitespace
characters of `Char.isWhitespace`): remove leading and trailing
whitespace. -/
def trimSpace (s : String) : String :=
  String.mk (List.reverse (dropWhileWhitespace
    (List.reverse (dropWhileWhitespace s.data))))

/-! ## Warehouse name validation (claim C5)

Embeds the schema `ValidateFunc` of the `warehouse.name` field and the
uniqueness pre-check of `customizeEl2Diff` (which counts occurrences of the
*trimmed* names). -/

/-- Failure cases of the schema-level name validator. -/
inductive NameError
  | emptyName
  | reservedName
  | containsHyphen
  deriving DecidableEq, Repr

/-- Schema `ValidateFunc` for `warehouse.name`: rejects the empty name, the
reserved default-warehouse name, and any name containing a hyphen. -/
def warehouseNameCheck (whName : String) : Option NameError :=
  if whName.length = 0 then some NameError.emptyName
  else if whName = DEFAULT_WAREHOUSE_NAME then some NameError.reservedName
  else if whName.data.contains '-' then some NameError.containsHyphen
  else none

/-- Uniqueness pre-check of `customizeEl2Diff` (step 1 of the `warehouse`
block): counts the trimmed warehouse names and reports a name occurring more
than once, if any. -/
def duplicateWarehouseName (names : List String) : Option String :=
  let trimmed := names.map trimSpace
  trimmed.find? (fun n => decide (1 < trimmed.count n))

/-- Combined warehouse-name validation: the per-entry schema checks plus the
uniqueness check of `customizeEl2Diff`. -/
def warehouseNamesValidate (names : List String) : Bool :=
  names.all (fun n => (warehouseNameCheck n).isNone)
    && (duplicateWarehouseName names).isNone

/-! ## Warehouse diff dispatch (claim C7)

Embeds the `warehouse` block of `resourceElasticClusterV2Update`: the old and
new lists are keyed by name; every new entry whose name exists in the old map
is updated in place, every new entry with a fresh name is created, and every
old entry whose name vanished is released. -/

/-- Action dispatched for one warehouse name by the diff of
`resourceElasticClusterV2Update`. -/
inductive WhDiffAction
  | updateExisting (name : String)
  | createNew (name : String)
  | releaseRemoved (name : String)
  deriving DecidableEq, Repr

/-- The dispatch order of the `warehouse` block: first the pass over the new
list (update or create), then the pass over the old list (release the
removed names). -/
def warehouseDiffDispatch (old new : List WhParams) : List WhDiffAction :=
  (new.map fun wh =>
      if wh.name ∈ old.map WhParams.name then WhDiffAction.updateExisting wh.name
      else WhDiffAction.createNew wh.name)
    ++ (old.filterMap fun wh =>
      if wh.name ∈ new.map WhParams.name then none
      else some (WhDiffAction.releaseRemoved wh.name))

/-! ## The precondition validator `customizeEl2Diff`

The validator consults the remote catalogue through read-only calls.  Remote
responses are supplied by a `DiffOracle`; errors are structured values
(`DiffError`), each corresponding to one `return fmt.Errorf`/`errors.New`
site of the Go function.  The `csp`/`region` request fields only select the
catalogue and are absorbed into the oracle. -/

/-- Structured errors of `customizeEl2Diff`, one constructor per error
return site. -/
inductive DiffError
  | vmQueryFailed (vmCate : String)
  | vmNotExists (vmCate : String)
  | networkQueryFailed (networkId : String)
  | multiAzCoordinatorCountTooSmall
  | specifyAzRequiresPolicy
  | coordinatorArchChanged (oldVmCate newVmCate : String)
  | coordinatorVolSizeDecreased
  | volumeParamInvalid (nodeType : String)
  | warehouseArchMismatch (whName : String)
  | warehouseVolumeConfigNotSupported (whName : String)
  | duplicateName (whName : String)
  | warehouseDiskTypeChanged (whName : String)
  deriving DecidableEq, Repr

/-- Outcome of a `GetVmInfo` catalogue query. -/
inductive VmLookupResult
  | rpcError
  | missing
  | found (info : VMInfo)
  deriving DecidableEq, Repr

/-- Observed network attributes (`network.Network`), restricted to the only
field the resource file reads. -/
structure NetworkInfo where
  multiAz : Bool
  deriving DecidableEq, Repr

/-- Remote responses consumed by the validator.  `volumeParamFe` /
`volumeParamBe` stand for `VolumeParamVerify` (defined outside this source
file), which validates iops/throughput against the volume category via
read-only catalogue queries. -/
structure DiffOracle where
  vmInfo : String → String → VmLookupResult
  network : String → Option NetworkInfo
  volumeParamFe : String → FeVolumeConfig → Bool
  volumeParamBe : String → BeVolumeConfig → Bool

/-- The inputs `customizeEl2Diff` reads from the resource diff.  During the
diff phase `d.Get` returns the new value, so fields read both ways in the Go
code appear once.  `clusterId = ""` encodes a new resource. -/
structure DiffInput where
  clusterId : String
  networkId : String
  coordinatorNodeSize : String
  coordinatorNodeSizeOld : String
  coordinatorNodeSizeChanged : Bool
  coordinatorNodeCount : Int
  coordinatorVolChanged : Bool
  coordinatorVolOld : Option FeVolumeConfig
  coordinatorVolNew : Option FeVolumeConfig
  defaultWarehouse : WhParams
  warehouses : List WhParams
  defaultWarehouseChanged : Bool
  warehouseChanged : Bool
  warehouseExternalInfo : List (String × WarehouseExternalInfo)

/-- `GetVmInfo` plus the two error checks that follow every call site. -/
def getVmInfoChecked (o : DiffOracle) (processType vmCate : String) :
    CallM DiffError VMInfo :=
  CallM.bind (CallM.emit (RemoteCall.getVmInfo processType vmCate)) fun _ =>
    match o.vmInfo processType vmCate with
    | VmLookupResult.rpcError => CallM.fail (DiffError.vmQueryFailed vmCate)
    | VmLookupResult.missing => CallM.fail (DiffError.vmNotExists vmCate)
    | VmLookupResult.found info => Pure.pure info

/-- The network block: fetch the network when a network id is configured and
enforce the multi-AZ coordinator-count floor. -/
def checkNetworkMultiAz (o : DiffOracle) (networkId : String)
    (coordinatorNodeCount : Int) : CallM DiffError Unit :=
  if networkId = "" then Pure.pure ()
  else
    CallM.bind (CallM.emit (RemoteCall.getNetwork networkId)) fun _ =>
      match o.network networkId with
      | none => CallM.fail (DiffError.networkQueryFailed networkId)
      | some net =>
        if net.multiAz = true ∧ coordinatorNodeCount < 3 then
          CallM.fail DiffError.multiAzCoordinatorCountTooSmall
        else Pure.pure ()

/-- The `specify_az` consistency loop over the default warehouse followed by
the named warehouses. -/
def checkSpecifyAz (whs : List WhParams) : CallM DiffError Unit :=
  match whs.find? (fun wh =>
      decide (wh.distributionPolicy ≠ SPECIFY_AZ ∧ wh.specifyAz ≠ "")) with
  | some _ => CallM.fail DiffError.specifyAzRequiresPolicy
  | none => Pure.pure ()

/-- On a coordinator resize of an existing resource, the old instance type is
looked up and its architecture compared with the new one. -/
def checkCoordinatorArch (o : DiffOracle) (inp : DiffInput) (feArch : String) :
    CallM DiffError Unit :=
  if inp.coordinatorNodeSizeChanged = true ∧ inp.clusterId ≠ "" then
    CallM.bind (getVmInfoChecked o "FE" inp.coordinatorNodeSizeOld) fun oldVm =>
      if feArch ≠ oldVm.arch then
        CallM.fail (DiffError.coordinatorArchChanged inp.coordinatorNodeSizeOld
          inp.coordinatorNodeSize)
      else Pure.pure ()
  else Pure.pure ()

/-- On a coordinator volume change of an existing resource, reject a size
decrease; absent configs default via `DefaultFeVolumeMap`. -/
def checkCoordinatorVolResize (inp : DiffInput) : CallM DiffError Unit :=
  if inp.coordinatorVolChanged = true ∧ inp.clusterId ≠ "" then
    if (inp.coordinatorVolNew.getD DefaultFeVolumeMap).volSize <
        (inp.coordinatorVolOld.getD DefaultFeVolumeMap).volSize then
      CallM.fail DiffError.coordinatorVolSizeDecreased
    else Pure.pure ()
  else Pure.pure ()

/-- `VolumeParamVerify` on a coordinator volume config. -/
def volumeParamVerifyFe (o : DiffOracle) (volumeCate : String)
    (cfg : FeVolumeConfig) : CallM DiffError Unit :=
  CallM.bind (CallM.emit RemoteCall.volumeParamCheck) fun _ =>
    if o.volumeParamFe volumeCate cfg then Pure.pure ()
    else CallM.fail (DiffError.volumeParamInvalid "Coordinator node")

/-- `VolumeParamVerify` on a warehouse volume config. -/
def volumeParamVerifyBe (o : DiffOracle) (volumeCate : String)
    (cfg : BeVolumeConfig) : CallM DiffError Unit :=
  CallM.bind (CallM.emit RemoteCall.volumeParamCheck) fun _ =>
    if o.volumeParamBe volumeCate cfg then Pure.pure ()
    else CallM.fail (DiffError.volumeParamInvalid "Compute node")

/-- When the coordinator instance type is not instance-store and a volume
config is present, its parameters are verified. -/
def checkCoordinatorVolumeParams (o : DiffOracle) (inp : DiffInput)
    (feVm : VMInfo) : CallM DiffError Unit :=
  if feVm.isInstanceStore then Pure.pure ()
  else
    match inp.coordinatorVolNew with
    | some cfg => volumeParamVerifyFe o feVm.volumeCate cfg
    | none => Pure.pure ()

/-- Per-warehouse catalogue check: architecture must match the coordinator;
instance-store types must not carry a volume config; otherwise the config is
verified.  Returns the VM info, keyed later by the trimmed name. -/
def checkWarehouseVmItem (o : DiffOracle) (feArch : String) (wh : WhParams) :
    CallM DiffError VMInfo :=
  CallM.bind (getVmInfoChecked o "BE" wh.computeNodeSize) fun vm =>
    if vm.arch ≠ feArch then
      CallM.fail (DiffError.warehouseArchMismatch (trimSpace wh.name))
    else if vm.isInstanceStore then
      match wh.computeNodeVolumeConfig with
      | some _ =>
        CallM.fail (DiffError.warehouseVolumeConfigNotSupported (trimSpace wh.name))
      | none => Pure.pure vm
    else
      match wh.computeNodeVolumeConfig with
      | some cfg =>
        CallM.bind (volumeParamVerifyBe o vm.volumeCate cfg) fun _ =>
          Pure.pure vm
      | none => Pure.pure vm

/-- The loop building `whVmInfoMap` out of the declared warehouse list. -/
def checkWarehouseList (o : DiffOracle) (feArch : String) :
    List WhParams → CallM DiffError (List (String × VMInfo))
  | [] => Pure.pure []
  | wh :: rest =>
    CallM.bind (checkWarehouseVmItem o feArch wh) fun vm =>
      CallM.bind (checkWarehouseList o feArch rest) fun tail =>
        Pure.pure ((trimSpace wh.name, vm) :: tail)

/-- The persisted-classification loop: for every persisted external-info
record whose warehouse also appears in the declared list, the instance-store
classification must be unchanged. -/
def checkInstanceStoreConsistency
    (vmMap : List (String × VMInfo)) :
    List (String × WarehouseExternalInfo) → CallM DiffError Unit
  | [] => Pure.pure ()
  | (whName, ext) :: rest =>
    match vmMap.lookup whName with
    | some vm =>
      if ext.isInstanceStore ≠ vm.isInstanceStore then
        CallM.fail (DiffError.warehouseDiskTypeChanged whName)
      else checkInstanceStoreConsistency vmMap rest
    | none => checkInstanceStoreConsistency vmMap rest

/-- The `default_warehouse` block of `customizeEl2Diff`. -/
def checkDefaultWarehouseBlock (o : DiffOracle) (inp : DiffInput)
    (feArch : String) : CallM DiffError Unit :=
  if inp.defaultWarehouseChanged then
    CallM.bind (checkWarehouseList o feArch [inp.defaultWarehouse]) fun vmMap =>
      if inp.clusterId ≠ "" then
        checkInstanceStoreConsistency vmMap inp.warehouseExternalInfo
      else Pure.pure ()
  else Pure.pure ()

/-- The `warehouse` block of `customizeEl2Diff`: uniqueness pre-check, then
catalogue checks, then the persisted-classification loop. -/
def checkWarehouseBlock (o : DiffOracle) (inp : DiffInput) (feArch : String) :
    CallM DiffError Unit :=
  if inp.warehouseChanged then
    CallM.bind
      (match duplicateWarehouseName (inp.warehouses.map WhParams.name) with
        | some n => CallM.fail (DiffError.duplicateName n)
        | none => Pure.pure ()) fun _ =>
      CallM.bind (checkWarehouseList o feArch inp.warehouses) fun vmMap =>
        if inp.clusterId ≠ "" then
          checkInstanceStoreConsistency vmMap inp.warehouseExternalInfo
        else Pure.pure ()
  else Pure.pure ()

/-- The whole validator, in the order of the Go function. -/
def customizeEl2Diff (o : DiffOracle) (inp : DiffInput) :
    CallM DiffError Unit :=
  CallM.bind (getVmInfoChecked o "FE" inp.coordinatorNodeSize) fun feVm =>
  CallM.bind (checkNetworkMultiAz o inp.networkId inp.coordinatorNodeCount) fun _ =>
  CallM.bind (checkSpecifyAz (inp.defaultWarehouse :: inp.warehouses)) fun _ =>
  CallM.bind (checkCoordinatorArch o inp feVm.arch) fun _ =>
  CallM.bind (checkCoordinatorVolResize inp) fun _ =>
  CallM.bind (checkCoordinatorVolumeParams o inp feVm) fun _ =>
  CallM.bind (checkDefaultWarehouseBlock o inp feVm.arch) fun _ =>
  checkWarehouseBlock o inp feVm.arch

/-! ## Read-only traces -/

/-- A computation is read-only when every call it issues is non-mutating. -/
def ReadOnly {ε α : Type} (x : CallM ε α) : Prop :=
  ∀ c ∈ x.trace, c.isMutating = false

/-! ## Create / update / delete drivers

Each driver is embedded as a function from an oracle (the remote responses)
to a result record carrying the issued-call trace, the persisted cluster
identity (`d.SetId`; `""` means unset), and a structured outcome.  The
create and update drivers are embedded up to the point where the initial
asynchronous operation has been awaited and its abnormal terminal state
handled (plus, for update, the `idle_suspend_interval` block); the
`proceed` outcome stands for the remaining field-group steps. -/

/-- Result of one `WaitClusterStateChangeComplete` poll: either the wait
itself failed, or a terminal state was reached together with the
remote-reported abnormal reason. -/
inductive AwaitResult
  | waitError (msg : String)
  | reached (state : ClusterState) (abnormalReason : String)
  deriving DecidableEq, Repr

/-- Result of one `WaitClusterInfraActionStateChangeComplete` poll. -/
inductive InfraAwait
  | waitError (msg : String)
  | reached (state : InfraState) (errMsg : String)
  deriving DecidableEq, Repr

/-- Outcome and persisted identity of a lifecycle driver. -/
structure DriverResult (ω : Type) where
  trace : List RemoteCall
  persistedId : String
  outcome : ω
  deriving DecidableEq, Repr

/-- Pending states of the deploy wait in the create driver. -/
def deployPendingStates : List ClusterState :=
  [ClusterState.deploying, ClusterState.scaling, ClusterState.resuming,
   ClusterState.suspending, ClusterState.releasing, ClusterState.updating]

/-- Target states of the deploy wait in the create driver. -/
def deployTargetStates : List ClusterState :=
  [ClusterState.running, ClusterState.abnormal]

/-- Target states of the quiescence waits in read/update/delete. -/
def quiesceTargetStates : List ClusterState :=
  [ClusterState.running, ClusterState.suspended, ClusterState.abnormal,
   ClusterState.released]

/-- Target states of the release wait in the delete driver. -/
def releaseTargetStates : List ClusterState :=
  [ClusterState.released, ClusterState.abnormal]

/-- Outcomes of the create driver core. -/
inductive CreateOutcome
  | networkError
  | validationMultiAzError
  | deployError
  | waitWarning (msg : String)
  | abnormalError (reason : String)
  | proceed (clusterId : String) (defaultWarehouseId : String)
  deriving DecidableEq, Repr

/-- Fields of the `Deploy` response that the create driver reads. -/
structure DeployResult where
  clusterId : String
  defaultWarehouseId : String
  actionId : String
  deriving DecidableEq, Repr

/-- Remote responses consumed by the create driver core. -/
structure CreateOracle where
  network : String → Option NetworkInfo
  deploy : Option DeployResult
  deployAwait : AwaitResult

/-- Inputs of the create driver that the embedded portion reads. -/
structure CreateInput where
  networkId : String
  coordinatorNodeCount : Int
  deriving DecidableEq, Repr

/-- `resourceElasticClusterV2Create` up to the abnormal-state handling of
the deploy wait: fetch the network, enforce the multi-AZ coordinator floor,
deploy, persist the returned cluster id, await the deploy, and on an
`abnormal` terminal state clear the persisted id and surface the
remote-reported reason.  The later best-effort steps (config upserts,
certificates, idle policy, named warehouses, expected-state suspend) are
summarised by the `proceed` outcome. -/
def resourceElasticClusterV2CreateCore (o : CreateOracle) (inp : CreateInput) :
    DriverResult CreateOutcome :=
  match o.network inp.networkId with
  | none =>
    ⟨[RemoteCall.getNetwork inp.networkId], "", CreateOutcome.networkError⟩
  | some net =>
    if net.multiAz = true ∧ inp.coordinatorNodeCount < 3 then
      ⟨[RemoteCall.getNetwork inp.networkId], "",
        CreateOutcome.validationMultiAzError⟩
    else
      match o.deploy with
      | none =>
        ⟨[RemoteCall.getNetwork inp.networkId, RemoteCall.deploy], "",
          CreateOutcome.deployError⟩
      | some dr =>
        let t := [RemoteCall.getNetwork inp.networkId, RemoteCall.deploy,
          RemoteCall.awaitClusterState deployTargetStates]
        match o.deployAwait with
        | AwaitResult.waitError msg =>
          ⟨t, dr.clusterId, CreateOutcome.waitWarning msg⟩
        | AwaitResult.reached st reason =>
          if st = ClusterState.abnormal then
            ⟨t, "", CreateOutcome.abnormalError reason⟩
          else
            ⟨t, dr.clusterId,
              CreateOutcome.proceed dr.clusterId dr.defaultWarehouseId⟩

/-- The eight fields rejected by `resourceElasticClusterV2Update` before it
does anything else. -/
def immutableFields : List String :=
  ["csp", "region", "cluster_name", "default_admin_password",
   "data_credential_id", "deployment_credential_id", "network_id",
   "query_port"]

/-- Outcomes of the update driver core. -/
inductive UpdateOutcome
  | immutableFieldError (field : String)
  | waitError (msg : String)
  | releasedError
  | abnormalError (reason : String)
  | idleConfigError (msg : String)
  | proceed
  deriving DecidableEq, Repr

/-- Remote responses consumed by the update driver core.  `idleConfig` is
the outcome of `UpdateClusterIdleConfig` (`some msg` = RPC failure). -/
structure UpdateOracle where
  initialAwait : AwaitResult
  idleConfig : Option String

/-- Inputs of the update driver that the embedded portion reads.
`hasChange` is `d.HasChange` restricted to the field names consulted. -/
structure UpdateInput where
  clusterId : String
  isNewResource : Bool
  hasChange : String → Bool
  idleSuspendIntervalOld : Int
  idleSuspendIntervalNew : Int

/-- `resourceElasticClusterV2Update` up to (and including) the
`idle_suspend_interval` block: reject a change to any immutable field before
any call, await quiescence, handle `released` (clear the id) and `abnormal`
(keep the id, surface the reason), then issue the single idle-config call.
`UpdateClusterIdleConfig` itself is defined outside this source file;
modelled from the spec: it is one synchronous idle-config RPC carrying the
interval in milliseconds and the enable state, with no polling.  The later
field-group steps are summarised by `proceed`. -/
def resourceElasticClusterV2UpdateCore (o : UpdateOracle) (inp : UpdateInput) :
    DriverResult UpdateOutcome :=
  match immutableFields.find?
      (fun f => inp.hasChange f && !inp.isNewResource) with
  | some f => ⟨[], inp.clusterId, UpdateOutcome.immutableFieldError f⟩
  | none =>
    let t0 := [RemoteCall.awaitClusterState quiesceTargetStates]
    match o.initialAwait with
    | AwaitResult.waitError msg =>
      ⟨t0, inp.clusterId, UpdateOutcome.waitError msg⟩
    | AwaitResult.reached st reason =>
      if st = ClusterState.released then
        ⟨t0, "", UpdateOutcome.releasedError⟩
      else if st = ClusterState.abnormal then
        ⟨t0, inp.clusterId, UpdateOutcome.abnormalError reason⟩
      else
        if inp.hasChange "idle_suspend_interval" && !inp.isNewResource then
          let nv := inp.idleSuspendIntervalNew
          let v := if 0 < nv then nv else inp.idleSuspendIntervalOld
          let t1 := t0 ++ [RemoteCall.updateIdleConfig inp.clusterId
            (v * 60 * 1000) (decide (0 < nv))]
          match o.idleConfig with
          | some msg => ⟨t1, inp.clusterId, UpdateOutcome.idleConfigError msg⟩
          | none => ⟨t1, inp.clusterId, UpdateOutcome.proceed⟩
        else ⟨t0, inp.clusterId, UpdateOutcome.proceed⟩

/-- Outcomes of the delete driver. -/
inductive DeleteOutcome
  | initialWaitError (msg : String)
  | releaseRpcError
  | releaseWaitError (msg : String)
  | releaseAbnormalError (reason : String)
  | deleted
  deriving DecidableEq, Repr

/-- Remote responses consumed by the delete driver.  `release` returns the
action id, or `none` on RPC failure. -/
structure DeleteOracle where
  initialAwait : AwaitResult
  release : Option String
  releaseAwait : AwaitResult

/-- `resourceElasticClusterV2Delete`: await quiescence (result state
ignored), issue `Release`, await it to `released`/`abnormal`; on `abnormal`
clear the persisted id and surface an error embedding the remote-reported
reason; on success clear the id. -/
def resourceElasticClusterV2DeleteCore (o : DeleteOracle)
    (clusterId : String) : DriverResult DeleteOutcome :=
  let t0 := [RemoteCall.awaitClusterState quiesceTargetStates]
  match o.initialAwait with
  | AwaitResult.waitError msg =>
    ⟨t0, clusterId, DeleteOutcome.initialWaitError msg⟩
  | AwaitResult.reached _ _ =>
    let t1 := t0 ++ [RemoteCall.release clusterId]
    match o.release with
    | none => ⟨t1, clusterId, DeleteOutcome.releaseRpcError⟩
    | some _ =>
      let t2 := t1 ++ [RemoteCall.awaitClusterState releaseTargetStates]
      match o.releaseAwait with
      | AwaitResult.waitError msg =>
        ⟨t2, clusterId, DeleteOutcome.releaseWaitError msg⟩
      | AwaitResult.reached st reason =>
        if st = ClusterState.abnormal then
          ⟨t2, "", DeleteOutcome.releaseAbnormalError reason⟩
        else ⟨t2, "", DeleteOutcome.deleted⟩

/-! ## The per-warehouse update operation `updateWarehouse` -/

/-- Modelled from the spec: the SDK state-string constants
`string(cluster.ClusterStateRunning)` / `string(cluster.ClusterStateSuspended)`
(defined outside this source file) used by the `expected_state` field. -/
def ClusterStateRunningStr : String := "running"

/-- Modelled from the spec: see `ClusterStateRunningStr`. -/
def ClusterStateSuspendedStr : String := "suspended"

/-- Structured errors (fatal or warning diagnostics) of `updateWarehouse`;
every constructor corresponds to one `return` site. -/
inductive WhError
  | distributionRpc (msg : String)
  | distributionWait (msg : String)
  | distributionFailed (msg : String)
  | scaleSizeRpc (msg : String)
  | scaleSizeWait (msg : String)
  | scaleSizeAbnormal (reason : String)
  | scaleNumRpc (msg : String)
  | scaleNumWait (msg : String)
  | scaleNumAbnormal (reason : String)
  | volNumberChanged
  | volSizeDecreased
  | volumeRpc (msg : String)
  | volumeWait (msg : String)
  | volumeFailed (msg : String)
  | idleWarning (msg : String)
  | resumeRpc (msg : String)
  | resumeWait (msg : String)
  | resumeAbnormal (reason : String)
  | upsertConfigWarning (msg : String)
  | suspendWarning (msg : String)
  | autoScalingSaveError (msg : String)
  | autoScalingDeleteWarning (msg : String)
  deriving DecidableEq, Repr

/-- Remote responses consumed by `updateWarehouse`.  Calls returning an
action id are `Except String String` (error message or id); unit RPCs are
`Option String` (`some msg` = failure). -/
structure UpdateWhOracle where
  changeDistribution : Except String String
  distributionAwait : InfraAwait
  scaleSize : Except String String
  sizeAwait : AwaitResult
  scaleNum : Except String String
  numAwait : AwaitResult
  modifyVolume : Except String String
  volumeAwait : InfraAwait
  idleConfig : Option String
  resume : Except String String
  resumeAwait : AwaitResult
  upsertBeConfig : Option String
  suspend : Except String String
  suspendAwait : AwaitResult
  saveAutoScaling : Option String
  deleteAutoScaling : Option String

/-- Target states of the warehouse scale waits. -/
def scaleTargetStates : List ClusterState :=
  [ClusterState.running, ClusterState.abnormal]

/-- Distribution-policy change: `ChangeWarehouseDistribution` plus an
immediately following infra-action wait. -/
def distributionStep (o : UpdateWhOracle) (whId : String)
    (oldP newP : WhParams) : CallM WhError Unit :=
  if oldP.distributionPolicy ≠ newP.distributionPolicy ∨
      (newP.distributionPolicy = SPECIFY_AZ ∧
        oldP.specifyAz ≠ newP.specifyAz) then
    CallM.bind (CallM.emit (RemoteCall.changeWarehouseDistribution whId))
      fun _ =>
      match o.changeDistribution with
      | Except.error msg => CallM.fail (WhError.distributionRpc msg)
      | Except.ok _ =>
        CallM.bind (CallM.emit RemoteCall.awaitInfraAction) fun _ =>
          match o.distributionAwait with
          | InfraAwait.waitError msg => CallM.fail (WhError.distributionWait msg)
          | InfraAwait.reached st msg =>
            if st = InfraState.failed then
              CallM.fail (WhError.distributionFailed msg)
            else Pure.pure ()
  else Pure.pure ()

/-- Node-size change: `ScaleWarehouseSize` immediately awaited to
`running`/`abnormal`. -/
def sizeStep (o : UpdateWhOracle) (whId : String) (oldP newP : WhParams) :
    CallM WhError Unit :=
  if oldP.computeNodeSize ≠ newP.computeNodeSize then
    CallM.bind
      (CallM.emit (RemoteCall.scaleWarehouseSize whId newP.computeNodeSize))
      fun _ =>
      match o.scaleSize with
      | Except.error msg => CallM.fail (WhError.scaleSizeRpc msg)
      | Except.ok _ =>
        CallM.bind (CallM.emit (RemoteCall.awaitClusterState scaleTargetStates))
          fun _ =>
          match o.sizeAwait with
          | AwaitResult.waitError msg => CallM.fail (WhError.scaleSizeWait msg)
          | AwaitResult.reached st reason =>
            if st = ClusterState.abnormal then
              CallM.fail (WhError.scaleSizeAbnormal reason)
            else Pure.pure ()
  else Pure.pure ()

/-- Node-count change: `ScaleWarehouseNum` immediately awaited to
`running`/`abnormal`. -/
def numStep (o : UpdateWhOracle) (whId : String) (oldP newP : WhParams) :
    CallM WhError Unit :=
  if oldP.computeNodeCount ≠ newP.computeNodeCount then
    CallM.bind
      (CallM.emit (RemoteCall.scaleWarehouseNum whId newP.computeNodeCount))
      fun _ =>
      match o.scaleNum with
      | Except.error msg => CallM.fail (WhError.scaleNumRpc msg)
      | Except.ok _ =>
        CallM.bind (CallM.emit (RemoteCall.awaitClusterState scaleTargetStates))
          fun _ =>
          match o.numAwait with
          | AwaitResult.waitError msg => CallM.fail (WhError.scaleNumWait msg)
          | AwaitResult.reached st reason =>
            if st = ClusterState.abnormal then
              CallM.fail (WhError.scaleNumAbnormal reason)
            else Pure.pure ()
  else Pure.pure ()

/-- The (defaulted) volume configuration of a warehouse entry: the configured
config when the list is non-empty, otherwise `DefaultBeVolumeMap` -- exactly
how `updateWarehouse` obtains `oldVolumeConfig`/`newVolumeConfig`. -/
def effectiveBeVolume (p : WhParams) : BeVolumeConfig :=
  p.computeNodeVolumeConfig.getD DefaultBeVolumeMap

/-- The `ModifyClusterVolume` call of `updateWarehouse`, with the
infra-action wait that follows when an action id was returned. -/
def modifyVolumeCall (o : UpdateWhOracle) (whId : String) :
    CallM WhError Unit :=
  CallM.bind (CallM.emit (RemoteCall.modifyClusterVolume whId)) fun _ =>
    match o.modifyVolume with
    | Except.error msg => CallM.fail (WhError.volumeRpc msg)
    | Except.ok actionId =>
      if actionId ≠ "" then
        CallM.bind (CallM.emit RemoteCall.awaitInfraAction) fun _ =>
          match o.volumeAwait with
          | InfraAwait.waitError msg => CallM.fail (WhError.volumeWait msg)
          | InfraAwait.reached st msg =>
            if st = InfraState.failed then
              CallM.fail (WhError.volumeFailed msg)
            else Pure.pure ()
      else Pure.pure ()

/-- Volume-config change: for non-instance-store warehouses whose (defaulted)
configs differ, reject a disk-count change, then a size decrease, then issue
`ModifyClusterVolume` and await the infra action when an action id was
returned. -/
def volumeStep (o : UpdateWhOracle) (whId : String)
    (computeNodeIsInstanceStore : Bool) (oldP newP : WhParams) :
    CallM WhError Unit :=
  if computeNodeIsInstanceStore = false ∧
      effectiveBeVolume oldP ≠ effectiveBeVolume newP then
    if (effectiveBeVolume oldP).volNumber ≠
        (effectiveBeVolume newP).volNumber then
      CallM.fail WhError.volNumberChanged
    else if (effectiveBeVolume newP).volSize <
        (effectiveBeVolume oldP).volSize then
      CallM.fail WhError.volSizeDecreased
    else modifyVolumeCall o whId
  else Pure.pure ()

/-- Idle-interval change of a non-default warehouse: one synchronous
`UpdateWarehouseIdleConfig` call. -/
def whIdleStep (o : UpdateWhOracle) (whId : String) (isDefault : Bool)
    (oldP newP : WhParams) : CallM WhError Unit :=
  if isDefault = false ∧
      oldP.idleSuspendInterval ≠ newP.idleSuspendInterval then
    CallM.bind (CallM.emit (RemoteCall.updateWarehouseIdleConfig whId
        (newP.idleSuspendInterval * 60 * 1000)
        (decide (0 < newP.idleSuspendInterval)))) fun _ =>
      match o.idleConfig with
      | some msg => CallM.fail (WhError.idleWarning msg)
      | none => Pure.pure ()
  else Pure.pure ()

/-- Expected-state change to `running` of a non-default warehouse:
`ResumeWarehouse`, awaited when an action id was returned. -/
def resumeStep (o : UpdateWhOracle) (whId : String) (isDefault : Bool)
    (oldP newP : WhParams) : CallM WhError Unit :=
  if isDefault = false ∧ oldP.expectedState ≠ newP.expectedState ∧
      newP.expectedState = ClusterStateRunningStr then
    CallM.bind (CallM.emit (RemoteCall.resumeWarehouse whId)) fun _ =>
      match o.resume with
      | Except.error msg => CallM.fail (WhError.resumeRpc msg)
      | Except.ok actionId =>
        if actionId ≠ "" then
          CallM.bind
            (CallM.emit (RemoteCall.awaitClusterState scaleTargetStates))
            fun _ =>
            match o.resumeAwait with
            | AwaitResult.waitError msg => CallM.fail (WhError.resumeWait msg)
            | AwaitResult.reached st reason =>
              if st = ClusterState.abnormal then
                CallM.fail (WhError.resumeAbnormal reason)
              else Pure.pure ()
        else Pure.pure ()
  else Pure.pure ()

/-- Custom-config change: one `UpsertClusterConfig` call with the new
key-values. -/
def srConfigStep (o : UpdateWhOracle) (whId : String) (oldP newP : WhParams) :
    CallM WhError Unit :=
  if oldP.computeNodeConfigs ≠ newP.computeNodeConfigs then
    CallM.bind (CallM.emit (RemoteCall.upsertConfig whId)) fun _ =>
      match o.upsertBeConfig with
      | some msg => CallM.fail (WhError.upsertConfigWarning msg)
      | none => Pure.pure ()
  else Pure.pure ()

/-- Target states of the warehouse suspend wait. -/
def suspendTargetStates : List ClusterState :=
  [ClusterState.suspended, ClusterState.abnormal]

/-- Expected-state change to `suspended` of a non-default warehouse:
`SuspendWarehouse`, awaited when an action id was returned. -/
def suspendStep (o : UpdateWhOracle) (whId : String) (isDefault : Bool)
    (oldP newP : WhParams) : CallM WhError Unit :=
  if isDefault = false ∧ oldP.expectedState ≠ newP.expectedState ∧
      newP.expectedState = ClusterStateSuspendedStr then
    CallM.bind (CallM.emit (RemoteCall.suspendWarehouse whId)) fun _ =>
      match o.suspend with
      | Except.error msg => CallM.fail (WhError.suspendWarning msg)
      | Except.ok actionId =>
        if actionId ≠ "" then
          CallM.bind
            (CallM.emit (RemoteCall.awaitClusterState suspendTargetStates))
            fun _ =>
            match o.suspendAwait with
            | AwaitResult.waitError msg =>
              CallM.fail (WhError.suspendWarning msg)
            | AwaitResult.reached st reason =>
              if st = ClusterState.abnormal then
                CallM.fail (WhError.suspendWarning reason)
              else Pure.pure ()
        else Pure.pure ()
  else Pure.pure ()

/-- Auto-scaling policy change: save the new policy when non-empty,
otherwise delete the stored policy. -/
def autoScalingStep (o : UpdateWhOracle) (whId : String)
    (oldP newP : WhParams) : CallM WhError Unit :=
  if oldP.autoScalingPolicy ≠ newP.autoScalingPolicy then
    if newP.autoScalingPolicy ≠ "" then
      CallM.bind (CallM.emit (RemoteCall.saveAutoScalingConfig whId)) fun _ =>
        match o.saveAutoScaling with
        | some msg => CallM.fail (WhError.autoScalingSaveError msg)
        | none => Pure.pure ()
    else
      CallM.bind (CallM.emit (RemoteCall.deleteAutoScalingConfig whId)) fun _ =>
        match o.deleteAutoScaling with
        | some msg => CallM.fail (WhError.autoScalingDeleteWarning msg)
        | none => Pure.pure ()
  else Pure.pure ()

/-- The steps of `updateWarehouse` after both scaling operations: volume
config, idle interval, resume, custom config, suspend, auto-scaling policy,
in source order. -/
def updateWarehouseRest (o : UpdateWhOracle) (ext : WarehouseExternalInfo)
    (oldP newP : WhParams) : CallM WhError Unit :=
  CallM.bind (volumeStep o ext.id ext.isInstanceStore oldP newP) fun _ =>
  CallM.bind (whIdleStep o ext.id ext.isDefaultWarehouse oldP newP) fun _ =>
  CallM.bind (resumeStep o ext.id ext.isDefaultWarehouse oldP newP) fun _ =>
  CallM.bind (srConfigStep o ext.id oldP newP) fun _ =>
  CallM.bind (suspendStep o ext.id ext.isDefaultWarehouse oldP newP) fun _ =>
  autoScalingStep o ext.id oldP newP

/-- `updateWarehouse`: the field-group steps in source order --
distribution, node size, node count, then `updateWarehouseRest`.  `ext` is
the persisted external-info record of the warehouse. -/
def updateWarehouse (o : UpdateWhOracle) (ext : WarehouseExternalInfo)
    (oldP newP : WhParams) : CallM WhError Unit :=
  CallM.bind (distributionStep o ext.id oldP newP) fun _ =>
  CallM.bind (sizeStep o ext.id oldP newP) fun _ =>
  CallM.bind (numStep o ext.id oldP newP) fun _ =>
  updateWarehouseRest o ext oldP newP

/-- Calls that modify a warehouse volume or upsert custom configuration. -/
def isVolumeOrConfigCall : RemoteCall → Bool
  | RemoteCall.modifyClusterVolume _ => true
  | RemoteCall.upsertConfig _ => true
  | _ => false

/-- Every call of a computation satisfies `p`. -/
def TraceAll {ε α : Type} (p : RemoteCall → Prop) (x : CallM ε α) : Prop :=
  ∀ c ∈ x.trace, p c

/-! ## Sample inputs for concrete witness runs -/

/-- Calls that set or update a cluster idle-suspend configuration. -/
def isIdleConfigCall : RemoteCall → Bool
  | RemoteCall.updateIdleConfig _ _ _ => true
  | _ => false

/-- A fixed warehouse parameter record for concrete runs. -/
def sampleWh : WhParams :=
  { name := "etl", computeNodeSize := "m5.xlarge", computeNodeCount := 3,
    distributionPolicy := "crossing_az", specifyAz := "",
    computeNodeVolumeConfig :=
      some { volNumber := 2, volSize := 100, iops := none, throughput := none },
    idleSuspendInterval := 0, autoScalingPolicy := "",
    expectedState := "running", computeNodeConfigs := [] }

/-- A remote-response record for `updateWarehouse` where every call
succeeds. -/
def sampleWhOracle : UpdateWhOracle :=
  { changeDistribution := Except.ok "ifa-1",
    distributionAwait := InfraAwait.reached InfraState.succeeded "",
    scaleSize := Except.ok "act-1",
    sizeAwait := AwaitResult.reached ClusterState.running "",
    scaleNum := Except.ok "act-2",
    numAwait := AwaitResult.reached ClusterState.running "",
    modifyVolume := Except.ok "",
    volumeAwait := InfraAwait.reached InfraState.succeeded "",
    idleConfig := none,
    resume := Except.ok "",
    resumeAwait := AwaitResult.reached ClusterState.running "",
    upsertBeConfig := none,
    suspend := Except.ok "",
    suspendAwait := AwaitResult.reached ClusterState.suspended "",
    saveAutoScaling := none,
    deleteAutoScaling := none }

/-- A fixed persisted external-info record for concrete runs. -/
def sampleExt : WarehouseExternalInfo :=
  { id := "wh-1", isInstanceStore := false, isDefaultWarehouse := false }

/-- A fixed deploy response for concrete runs. -/
def sampleDeploy : DeployResult :=
  { clusterId := "cl-1", defaultWarehouseId := "wh-1", actionId := "act-1" }

/-- `sampleWh` scaled to a bigger node size and count. -/
def sampleWhScaled : WhParams :=
  { sampleWh with computeNodeSize := "m6.xlarge", computeNodeCount := 5 }

/-- `sampleWh` with the disk count changed from 2 to 3 (size unchanged). -/
def sampleWhVolNum3 : WhParams :=
  { sampleWh with computeNodeVolumeConfig := some ⟨3, 100, none, none⟩ }

/-! ## Theorems -/

theorem CallM.bind_eq {ε α β : Type} (x : CallM ε α) (f : α → CallM ε β) :
    x >>= f = CallM.bind x f := rfl

@[simp] theorem CallM.ok_bind {ε α β : Type} (a : α) (t : List RemoteCall)
    (f : α → CallM ε β) :
    CallM.bind (Except.ok a, t) f = ((f a).1, t ++ (f a).2) := rfl

@[simp] theorem CallM.error_bind {ε α β : Type} (e : ε) (t : List RemoteCall)
    (f : α → CallM ε β) :
    CallM.bind (Except.error e, t) f = (Except.error e, t) := rfl

@[simp] theorem CallM.pure_eq {ε α : Type} (a : α) :
    (Pure.pure a : CallM ε α) = (Except.ok a, []) := rfl

@[simp] theorem CallM.emit_eq {ε : Type} (c : RemoteCall) :
    (emit c : CallM ε Unit) = (Except.ok (), [c]) := rfl

@[simp] theorem CallM.fail_eq {ε α : Type} (e : ε) :
    (fail e : CallM ε α) = (Except.error e, []) := rfl

@[simp] theorem CallM.trace_mk {ε α : Type} (r : Except ε α) (t : List RemoteCall) :
    trace (r, t) = t := rfl

@[simp] theorem CallM.res_mk {ε α : Type} (r : Except ε α) (t : List RemoteCall) :
    res (r, t) = r := rfl

theorem duplicateWarehouseName_isNone_iff (names : List String) :
    (duplicateWarehouseName names).isNone = true ↔
      (names.map trimSpace).Nodup := by
  unfold duplicateWarehouseName
  rw [Option.isNone_iff_eq_none, List.find?_eq_none, List.nodup_iff_count_le_one]
  constructor
  · intro h a
    by_cases ha : a ∈ names.map trimSpace
    · have := h a ha
      simp only [decide_eq_true_eq] at this
      omega
    · rw [List.count_eq_zero_of_not_mem ha]
      omega
  · intro h a ha
    simp only [decide_eq_true_eq]
    have := h a
    omega

theorem warehouseNameCheck_isNone_iff (n : String) :
    (warehouseNameCheck n).isNone = true ↔
      ¬(n = "" ∨ n = DEFAULT_WAREHOUSE_NAME ∨ n.data.contains '-' = true) := by
  unfold warehouseNameCheck
  have hlen : n.length = 0 ↔ n = "" := by
    constructor
    · intro h
      exact String.ext (List.eq_nil_of_length_eq_zero h)
    · intro h
      rw [h]
      rfl
  split
  · rename_i h
    simp only [Option.isNone_some]
    simp [hlen.mp h]
  · split
    · rename_i h
      simp only [Option.isNone_some]
      simp [h]
    · split
      · rename_i h
        constructor
        · intro hx
          simp at hx
        · intro hx
          exact (hx (Or.inr (Or.inr h))).elim
      · rename_i h1 h2 h3
        simp only [Option.isNone_none, true_iff]
        rw [hlen] at h1
        intro hc
        rcases hc with hc | hc | hc
        · exact h1 hc
        · exact h2 hc
        · exact h3 hc

theorem mem_dispatch_createNew (old new : List WhParams) (n : String) :
    WhDiffAction.createNew n ∈ warehouseDiffDispatch old new ↔
      (n ∈ new.map WhParams.name ∧ n ∉ old.map WhParams.name) := by
  unfold warehouseDiffDispatch
  simp only [List.mem_append, List.mem_map, List.mem_filterMap]
  constructor
  · rintro (⟨wh, hwh, heq⟩ | ⟨wh, hwh, heq⟩)
    · by_cases hc : ∃ a ∈ old, a.name = wh.name
      · rw [if_pos hc] at heq
        exact absurd heq (by simp)
      · rw [if_neg hc] at heq
        injection heq with h
        subst h
        exact ⟨⟨wh, hwh, rfl⟩, hc⟩
    · by_cases hc : ∃ a ∈ new, a.name = wh.name
      · rw [if_pos hc] at heq
        exact absurd heq (by simp)
      · rw [if_neg hc] at heq
        exact absurd heq (by simp)
  · rintro ⟨⟨wh, hwh, rfl⟩, hnot⟩
    left
    exact ⟨wh, hwh, by rw [if_neg hnot]⟩

theorem mem_dispatch_updateExisting (old new : List WhParams) (n : String) :
    WhDiffAction.updateExisting n ∈ warehouseDiffDispatch old new ↔
      (n ∈ new.map WhParams.name ∧ n ∈ old.map WhParams.name) := by
  unfold warehouseDiffDispatch
  simp only [List.mem_append, List.mem_map, List.mem_filterMap]
  constructor
  · rintro (⟨wh, hwh, heq⟩ | ⟨wh, hwh, heq⟩)
    · by_cases hc : ∃ a ∈ old, a.name = wh.name
      · rw [if_pos hc] at heq
        injection heq with h
        subst h
        exact ⟨⟨wh, hwh, rfl⟩, hc⟩
      · rw [if_neg hc] at heq
        exact absurd heq (by simp)
    · by_cases hc : ∃ a ∈ new, a.name = wh.name
      · rw [if_pos hc] at heq
        exact absurd heq (by simp)
      · rw [if_neg hc] at heq
        exact absurd heq (by simp)
  · rintro ⟨⟨wh, hwh, rfl⟩, hmem⟩
    left
    exact ⟨wh, hwh, by rw [if_pos hmem]⟩

theorem mem_dispatch_releaseRemoved (old new : List WhParams) (n : String) :
    WhDiffAction.releaseRemoved n ∈ warehouseDiffDispatch old new ↔
      (n ∈ old.map WhParams.name ∧ n ∉ new.map WhParams.name) := by
  unfold warehouseDiffDispatch
  simp only [List.mem_append, List.mem_map, List.mem_filterMap]
  constructor
  · rintro (⟨wh, hwh, heq⟩ | ⟨wh, hwh, heq⟩)
    · by_cases hc : ∃ a ∈ old, a.name = wh.name
      · rw [if_pos hc] at heq
        exact absurd heq (by simp)
      · rw [if_neg hc] at heq
        exact absurd heq (by simp)
    · by_cases hc : ∃ a ∈ new, a.name = wh.name
      · rw [if_pos hc] at heq
        exact absurd heq (by simp)
      · rw [if_neg hc] at heq
        injection heq with h
        injection h with h2
        subst h2
        exact ⟨⟨wh, hwh, rfl⟩, hc⟩
  · rintro ⟨⟨wh, hwh, rfl⟩, hnot⟩
    right
    exact ⟨wh, hwh, by rw [if_neg hnot]⟩

theorem readOnly_pure {ε α : Type} (a : α) :
    ReadOnly (Pure.pure a : CallM ε α) := by
  intro c hc
  simp [CallM.trace, Pure.pure, CallM.pure] at hc

theorem readOnly_fail {ε α : Type} (e : ε) :
    ReadOnly (CallM.fail e : CallM ε α) := by
  intro c hc
  simp [CallM.trace, CallM.fail] at hc

theorem readOnly_bind {ε α β : Type} {x : CallM ε α} {f : α → CallM ε β}
    (hx : ReadOnly x) (hf : ∀ a, ReadOnly (f a)) :
    ReadOnly (CallM.bind x f) := by
  intro c hc
  obtain ⟨r, t⟩ := x
  cases r with
  | error e =>
    rw [CallM.error_bind] at hc
    exact hx c hc
  | ok a =>
    rw [CallM.ok_bind] at hc
    simp only [CallM.trace, List.mem_append] at hc
    rcases hc with hc | hc
    · exact hx c hc
    · exact hf a c hc

theorem readOnly_emit {ε : Type} {c : RemoteCall}
    (h : c.isMutating = false) : ReadOnly (CallM.emit c : CallM ε Unit) := by
  intro d hd
  simp only [CallM.emit, CallM.trace, List.mem_singleton] at hd
  rw [hd]
  exact h

theorem readOnly_ite {ε α : Type} (p : Prop) [Decidable p]
    {x y : CallM ε α} (hx : ReadOnly x) (hy : ReadOnly y) :
    ReadOnly (if p then x else y) := by
  by_cases h : p
  · rwa [if_pos h]
  · rwa [if_neg h]

theorem getVmInfoChecked_readOnly (o : DiffOracle) (p v : String) :
    ReadOnly (getVmInfoChecked o p v) := by
  unfold getVmInfoChecked
  refine readOnly_bind (readOnly_emit rfl) fun _ => ?_
  cases h : o.vmInfo p v with
  | rpcError => exact readOnly_fail _
  | missing => exact readOnly_fail _
  | found info => exact readOnly_pure _

theorem checkNetworkMultiAz_readOnly (o : DiffOracle) (nid : String)
    (cnt : Int) : ReadOnly (checkNetworkMultiAz o nid cnt) := by
  unfold checkNetworkMultiAz
  refine readOnly_ite _ (readOnly_pure _) ?_
  refine readOnly_bind (readOnly_emit rfl) fun _ => ?_
  cases h : o.network nid with
  | none => exact readOnly_fail _
  | some net => exact readOnly_ite _ (readOnly_fail _) (readOnly_pure _)

theorem checkSpecifyAz_readOnly (whs : List WhParams) :
    ReadOnly (checkSpecifyAz whs) := by
  unfold checkSpecifyAz
  cases h : whs.find? (fun wh =>
      decide (wh.distributionPolicy ≠ SPECIFY_AZ ∧ wh.specifyAz ≠ "")) with
  | some w => exact readOnly_fail _
  | none => exact readOnly_pure _

theorem checkCoordinatorArch_readOnly (o : DiffOracle) (inp : DiffInput)
    (feArch : String) : ReadOnly (checkCoordinatorArch o inp feArch) := by
  unfold checkCoordinatorArch
  refine readOnly_ite _ ?_ (readOnly_pure _)
  refine readOnly_bind (getVmInfoChecked_readOnly o _ _) fun oldVm => ?_
  exact readOnly_ite _ (readOnly_fail _) (readOnly_pure _)

theorem checkCoordinatorVolResize_readOnly (inp : DiffInput) :
    ReadOnly (checkCoordinatorVolResize inp) := by
  unfold checkCoordinatorVolResize
  refine readOnly_ite _ ?_ (readOnly_pure _)
  exact readOnly_ite _ (readOnly_fail _) (readOnly_pure _)

theorem volumeParamVerifyFe_readOnly (o : DiffOracle) (vc : String)
    (cfg : FeVolumeConfig) : ReadOnly (volumeParamVerifyFe o vc cfg) := by
  unfold volumeParamVerifyFe
  refine readOnly_bind (readOnly_emit rfl) fun _ => ?_
  exact readOnly_ite _ (readOnly_pure _) (readOnly_fail _)

theorem volumeParamVerifyBe_readOnly (o : DiffOracle) (vc : String)
    (cfg : BeVolumeConfig) : ReadOnly (volumeParamVerifyBe o vc cfg) := by
  unfold volumeParamVerifyBe
  refine readOnly_bind (readOnly_emit rfl) fun _ => ?_
  exact readOnly_ite _ (readOnly_pure _) (readOnly_fail _)

theorem checkCoordinatorVolumeParams_readOnly (o : DiffOracle)
    (inp : DiffInput) (feVm : VMInfo) :
    ReadOnly (checkCoordinatorVolumeParams o inp feVm) := by
  unfold checkCoordinatorVolumeParams
  refine readOnly_ite _ (readOnly_pure _) ?_
  cases h : inp.coordinatorVolNew with
  | some cfg => exact volumeParamVerifyFe_readOnly o _ cfg
  | none => exact readOnly_pure _

theorem checkWarehouseVmItem_readOnly (o : DiffOracle) (feArch : String)
    (wh : WhParams) : ReadOnly (checkWarehouseVmItem o feArch wh) := by
  unfold checkWarehouseVmItem
  refine readOnly_bind (getVmInfoChecked_readOnly o _ _) fun vm => ?_
  refine readOnly_ite _ (readOnly_fail _) ?_
  refine readOnly_ite _ ?_ ?_
  · cases h : wh.computeNodeVolumeConfig with
    | some cfg => exact readOnly_fail _
    | none => exact readOnly_pure _
  · cases h : wh.computeNodeVolumeConfig with
    | some cfg =>
      exact readOnly_bind (volumeParamVerifyBe_readOnly o _ cfg) fun _ =>
        readOnly_pure _
    | none => exact readOnly_pure _

theorem checkWarehouseList_readOnly (o : DiffOracle) (feArch : String)
    (whs : List WhParams) : ReadOnly (checkWarehouseList o feArch whs) := by
  induction whs with
  | nil => exact readOnly_pure _
  | cons wh rest ih =>
    unfold checkWarehouseList
    refine readOnly_bind (checkWarehouseVmItem_readOnly o feArch wh) fun vm => ?_
    exact readOnly_bind ih fun tail => readOnly_pure _

theorem checkInstanceStoreConsistency_readOnly
    (vmMap : List (String × VMInfo))
    (ext : List (String × WarehouseExternalInfo)) :
    ReadOnly (checkInstanceStoreConsistency vmMap ext) := by
  induction ext with
  | nil => exact readOnly_pure _
  | cons p rest ih =>
    obtain ⟨whName, extInfo⟩ := p
    unfold checkInstanceStoreConsistency
    cases h : vmMap.lookup whName with
    | some vm => exact readOnly_ite _ (readOnly_fail _) ih
    | none => exact ih

theorem checkDefaultWarehouseBlock_readOnly (o : DiffOracle)
    (inp : DiffInput) (feArch : String) :
    ReadOnly (checkDefaultWarehouseBlock o inp feArch) := by
  unfold checkDefaultWarehouseBlock
  refine readOnly_ite _ ?_ (readOnly_pure _)
  refine readOnly_bind (checkWarehouseList_readOnly o feArch _) fun vmMap => ?_
  exact readOnly_ite _ (checkInstanceStoreConsistency_readOnly _ _)
    (readOnly_pure _)

theorem checkWarehouseBlock_readOnly (o : DiffOracle) (inp : DiffInput)
    (feArch : String) : ReadOnly (checkWarehouseBlock o inp feArch) := by
  unfold checkWarehouseBlock
  refine readOnly_ite _ ?_ (readOnly_pure _)
  refine readOnly_bind ?_ fun _ => ?_
  · cases h : duplicateWarehouseName (inp.warehouses.map WhParams.name) with
    | some n => exact readOnly_fail _
    | none => exact readOnly_pure _
  · refine readOnly_bind (checkWarehouseList_readOnly o feArch _) fun vmMap => ?_
    exact readOnly_ite _ (checkInstanceStoreConsistency_readOnly _ _)
      (readOnly_pure _)

theorem customizeEl2Diff_readOnly (o : DiffOracle) (inp : DiffInput) :
    ReadOnly (customizeEl2Diff o inp) := by
  unfold customizeEl2Diff
  refine readOnly_bind (getVmInfoChecked_readOnly o _ _) fun feVm => ?_
  refine readOnly_bind (checkNetworkMultiAz_readOnly o _ _) fun _ => ?_
  refine readOnly_bind (checkSpecifyAz_readOnly _) fun _ => ?_
  refine readOnly_bind (checkCoordinatorArch_readOnly o inp _) fun _ => ?_
  refine readOnly_bind (checkCoordinatorVolResize_readOnly inp) fun _ => ?_
  refine readOnly_bind (checkCoordinatorVolumeParams_readOnly o inp _) fun _ => ?_
  refine readOnly_bind (checkDefaultWarehouseBlock_readOnly o inp _) fun _ => ?_
  exact checkWarehouseBlock_readOnly o inp _

/-! ## Result analysis of the validator -/

theorem CallM.res_bind_error_iff {ε α β : Type} (x : CallM ε α)
    (f : α → CallM ε β) (e : ε) :
    (CallM.bind x f).res = Except.error e ↔
      (x.res = Except.error e ∨
        ∃ a, x.res = Except.ok a ∧ (f a).res = Except.error e) := by
  obtain ⟨r, t⟩ := x
  cases r with
  | error e2 => simp [CallM.res]
  | ok a => simp [CallM.res]

theorem CallM.res_bind_error_of_error {ε α β : Type} {x : CallM ε α}
    {f : α → CallM ε β} {e : ε} (h : x.res = Except.error e) :
    (CallM.bind x f).res = Except.error e := by
  obtain ⟨r, t⟩ := x
  cases r with
  | error e2 => simpa [CallM.res] using h
  | ok a => simp [CallM.res] at h

theorem CallM.res_bind_error_of_ok {ε α β : Type} {x : CallM ε α}
    {f : α → CallM ε β} {a : α} {e : ε} (hx : x.res = Except.ok a)
    (hf : (f a).res = Except.error e) :
    (CallM.bind x f).res = Except.error e := by
  obtain ⟨r, t⟩ := x
  cases r with
  | error e2 => simp [CallM.res] at hx
  | ok a2 =>
    simp only [CallM.res, Except.ok.injEq] at hx
    subst hx
    simpa [CallM.res] using hf

theorem CallM.no_error_bind {ε α β : Type} {x : CallM ε α}
    {f : α → CallM ε β} {e : ε} (hx : x.res ≠ Except.error e)
    (hf : ∀ a, (f a).res ≠ Except.error e) :
    (CallM.bind x f).res ≠ Except.error e := by
  obtain ⟨r, t⟩ := x
  cases r with
  | error e2 => simpa [CallM.res] using hx
  | ok a => simpa [CallM.res] using hf a

theorem CallM.no_error_ite {ε α : Type} (p : Prop) [Decidable p]
    {x y : CallM ε α} {e : ε} (hx : x.res ≠ Except.error e)
    (hy : y.res ≠ Except.error e) :
    (if p then x else y).res ≠ Except.error e := by
  by_cases h : p
  · rwa [if_pos h]
  · rwa [if_neg h]

theorem CallM.emit_res_ne_error {ε : Type} (c : RemoteCall) (e : ε) :
    (CallM.emit c : CallM ε Unit).res ≠ Except.error e := by
  simp [CallM.emit, CallM.res]

theorem CallM.pure_res_ne_error {ε α : Type} (a : α) (e : ε) :
    (Pure.pure a : CallM ε α).res ≠ Except.error e := by
  simp [Pure.pure, CallM.pure, CallM.res]

theorem CallM.fail_res_ne {ε α : Type} {e e2 : ε} (h : e ≠ e2) :
    (CallM.fail e : CallM ε α).res ≠ Except.error e2 := by
  simp only [CallM.fail, CallM.res, ne_eq, Except.error.injEq]
  exact h

theorem getVmInfoChecked_no_multiAz (o : DiffOracle) (p v : String) :
    (getVmInfoChecked o p v).res ≠
      Except.error DiffError.multiAzCoordinatorCountTooSmall := by
  unfold getVmInfoChecked
  refine CallM.no_error_bind (CallM.emit_res_ne_error _ _) fun _ => ?_
  cases h : o.vmInfo p v with
  | rpcError => exact CallM.fail_res_ne (by simp)
  | missing => exact CallM.fail_res_ne (by simp)
  | found info => exact CallM.pure_res_ne_error _ _

theorem getVmInfoChecked_res_ok_iff (o : DiffOracle) (p v : String)
    (info : VMInfo) :
    (getVmInfoChecked o p v).res = Except.ok info ↔
      o.vmInfo p v = VmLookupResult.found info := by
  unfold getVmInfoChecked
  cases h : o.vmInfo p v <;>
    simp [CallM.bind, CallM.emit, CallM.fail, CallM.res, Pure.pure, CallM.pure]

theorem checkNetworkMultiAz_multiAz_iff (o : DiffOracle) (nid : String)
    (cnt : Int) :
    (checkNetworkMultiAz o nid cnt).res =
        Except.error DiffError.multiAzCoordinatorCountTooSmall ↔
      (nid ≠ "" ∧
        ∃ net, o.network nid = some net ∧ net.multiAz = true ∧ cnt < 3) := by
  unfold checkNetworkMultiAz
  by_cases hn : nid = ""
  · rw [if_pos hn]
    simp [Pure.pure, CallM.pure, CallM.res, hn]
  · rw [if_neg hn]
    cases h : o.network nid with
    | none =>
      simp [CallM.bind, CallM.emit, CallM.fail, CallM.res, hn]
    | some net =>
      by_cases hc : net.multiAz = true ∧ cnt < 3
      · simp [CallM.bind, CallM.emit, CallM.fail, CallM.res, hn, hc]
      · simp [CallM.bind, CallM.emit, CallM.res, Pure.pure, CallM.pure, hn, hc]

theorem checkSpecifyAz_no_multiAz (whs : List WhParams) :
    (checkSpecifyAz whs).res ≠
      Except.error DiffError.multiAzCoordinatorCountTooSmall := by
  unfold checkSpecifyAz
  cases h : whs.find? (fun wh =>
      decide (wh.distributionPolicy ≠ SPECIFY_AZ ∧ wh.specifyAz ≠ "")) with
  | some w => exact CallM.fail_res_ne (by simp)
  | none => exact CallM.pure_res_ne_error _ _

theorem checkCoordinatorArch_no_multiAz (o : DiffOracle) (inp : DiffInput)
    (feArch : String) :
    (checkCoordinatorArch o inp feArch).res ≠
      Except.error DiffError.multiAzCoordinatorCountTooSmall := by
  unfold checkCoordinatorArch
  refine CallM.no_error_ite _ ?_ (CallM.pure_res_ne_error _ _)
  refine CallM.no_error_bind (getVmInfoChecked_no_multiAz o _ _) fun oldVm => ?_
  exact CallM.no_error_ite _ (CallM.fail_res_ne (by simp))
    (CallM.pure_res_ne_error _ _)

theorem checkCoordinatorVolResize_no_multiAz (inp : DiffInput) :
    (checkCoordinatorVolResize inp).res ≠
      Except.error DiffError.multiAzCoordinatorCountTooSmall := by
  unfold checkCoordinatorVolResize
  refine CallM.no_error_ite _ ?_ (CallM.pure_res_ne_error _ _)
  exact CallM.no_error_ite _ (CallM.fail_res_ne (by simp))
    (CallM.pure_res_ne_error _ _)

theorem volumeParamVerifyFe_no_multiAz (o : DiffOracle) (vc : String)
    (cfg : FeVolumeConfig) :
    (volumeParamVerifyFe o vc cfg).res ≠
      Except.error DiffError.multiAzCoordinatorCountTooSmall := by
  unfold volumeParamVerifyFe
  refine CallM.no_error_bind (CallM.emit_res_ne_error _ _) fun _ => ?_
  exact CallM.no_error_ite _ (CallM.pure_res_ne_error _ _)
    (CallM.fail_res_ne (by simp))

theorem volumeParamVerifyBe_no_multiAz (o : DiffOracle) (vc : String)
    (cfg : BeVolumeConfig) :
    (volumeParamVerifyBe o vc cfg).res ≠
      Except.error DiffError.multiAzCoordinatorCountTooSmall := by
  unfold volumeParamVerifyBe
  refine CallM.no_error_bind (CallM.emit_res_ne_error _ _) fun _ => ?_
  exact CallM.no_error_ite _ (CallM.pure_res_ne_error _ _)
    (CallM.fail_res_ne (by simp))

theorem checkCoordinatorVolumeParams_no_multiAz (o : DiffOracle)
    (inp : DiffInput) (feVm : VMInfo) :
    (checkCoordinatorVolumeParams o inp feVm).res ≠
      Except.error DiffError.multiAzCoordinatorCountTooSmall := by
  unfold checkCoordinatorVolumeParams
  refine CallM.no_error_ite _ (CallM.pure_res_ne_error _ _) ?_
  cases h : inp.coordinatorVolNew with
  | some cfg => exact volumeParamVerifyFe_no_multiAz o _ cfg
  | none => exact CallM.pure_res_ne_error _ _

theorem checkWarehouseVmItem_no_multiAz (o : DiffOracle) (feArch : String)
    (wh : WhParams) :
    (checkWarehouseVmItem o feArch wh).res ≠
      Except.error DiffError.multiAzCoordinatorCountTooSmall := by
  unfold checkWarehouseVmItem
  refine CallM.no_error_bind (getVmInfoChecked_no_multiAz o _ _) fun vm => ?_
  refine CallM.no_error_ite _ (CallM.fail_res_ne (by simp)) ?_
  refine CallM.no_error_ite _ ?_ ?_
  · cases h : wh.computeNodeVolumeConfig with
    | some cfg => exact CallM.fail_res_ne (by simp)
    | none => exact CallM.pure_res_ne_error _ _
  · cases h : wh.computeNodeVolumeConfig with
    | some cfg =>
      exact CallM.no_error_bind (volumeParamVerifyBe_no_multiAz o _ cfg)
        fun _ => CallM.pure_res_ne_error _ _
    | none => exact CallM.pure_res_ne_error _ _

theorem checkWarehouseList_no_multiAz (o : DiffOracle) (feArch : String)
    (whs : List WhParams) :
    (checkWarehouseList o feArch whs).res ≠
      Except.error DiffError.multiAzCoordinatorCountTooSmall := by
  induction whs with
  | nil => exact CallM.pure_res_ne_error _ _
  | cons wh rest ih =>
    unfold checkWarehouseList
    refine CallM.no_error_bind (checkWarehouseVmItem_no_multiAz o feArch wh)
      fun vm => ?_
    exact CallM.no_error_bind ih fun tail => CallM.pure_res_ne_error _ _

theorem checkInstanceStoreConsistency_no_multiAz
    (vmMap : List (String × VMInfo))
    (ext : List (String × WarehouseExternalInfo)) :
    (checkInstanceStoreConsistency vmMap ext).res ≠
      Except.error DiffError.multiAzCoordinatorCountTooSmall := by
  induction ext with
  | nil => exact CallM.pure_res_ne_error _ _
  | cons p rest ih =>
    obtain ⟨whName, extInfo⟩ := p
    unfold checkInstanceStoreConsistency
    cases h : vmMap.lookup whName with
    | some vm =>
      exact CallM.no_error_ite _ (CallM.fail_res_ne (by simp)) ih
    | none => exact ih

theorem checkDefaultWarehouseBlock_no_multiAz (o : DiffOracle)
    (inp : DiffInput) (feArch : String) :
    (checkDefaultWarehouseBlock o inp feArch).res ≠
      Except.error DiffError.multiAzCoordinatorCountTooSmall := by
  unfold checkDefaultWarehouseBlock
  refine CallM.no_error_ite _ ?_ (CallM.pure_res_ne_error _ _)
  refine CallM.no_error_bind (checkWarehouseList_no_multiAz o feArch _)
    fun vmMap => ?_
  exact CallM.no_error_ite _ (checkInstanceStoreConsistency_no_multiAz _ _)
    (CallM.pure_res_ne_error _ _)

theorem checkWarehouseBlock_no_multiAz (o : DiffOracle) (inp : DiffInput)
    (feArch : String) :
    (checkWarehouseBlock o inp feArch).res ≠
      Except.error DiffError.multiAzCoordinatorCountTooSmall := by
  unfold checkWarehouseBlock
  refine CallM.no_error_ite _ ?_ (CallM.pure_res_ne_error _ _)
  refine CallM.no_error_bind ?_ fun _ => ?_
  · cases h : duplicateWarehouseName (inp.warehouses.map WhParams.name) with
    | some n => exact CallM.fail_res_ne (by simp)
    | none => exact CallM.pure_res_ne_error _ _
  · refine CallM.no_error_bind (checkWarehouseList_no_multiAz o feArch _)
      fun vmMap => ?_
    exact CallM.no_error_ite _ (checkInstanceStoreConsistency_no_multiAz _ _)
      (CallM.pure_res_ne_error _ _)

/-- The multi-AZ coordinator-count error of the validator occurs precisely
when the catalogue lookup of the new coordinator size succeeds, a network id
is configured, the network is multi-AZ and the coordinator count is < 3. -/
theorem customizeEl2Diff_multiAz_iff (o : DiffOracle) (inp : DiffInput) :
    (customizeEl2Diff o inp).res =
        Except.error DiffError.multiAzCoordinatorCountTooSmall ↔
      ((∃ feVm, o.vmInfo "FE" inp.coordinatorNodeSize =
          VmLookupResult.found feVm) ∧
        inp.networkId ≠ "" ∧
        ∃ net, o.network inp.networkId = some net ∧
          net.multiAz = true ∧ inp.coordinatorNodeCount < 3) := by
  unfold customizeEl2Diff
  constructor
  · intro h
    rcases (CallM.res_bind_error_iff _ _ _).mp h with h1 | ⟨feVm, hok, h2⟩
    · exact absurd h1 (getVmInfoChecked_no_multiAz o _ _)
    · rcases (CallM.res_bind_error_iff _ _ _).mp h2 with h3 | ⟨u, huok, h4⟩
      · exact ⟨⟨feVm, (getVmInfoChecked_res_ok_iff o _ _ feVm).mp hok⟩,
          (checkNetworkMultiAz_multiAz_iff o _ _).mp h3⟩
      · exfalso
        refine absurd h4 ?_
        refine CallM.no_error_bind (checkSpecifyAz_no_multiAz _) fun _ => ?_
        refine CallM.no_error_bind
          (checkCoordinatorArch_no_multiAz o inp _) fun _ => ?_
        refine CallM.no_error_bind
          (checkCoordinatorVolResize_no_multiAz inp) fun _ => ?_
        refine CallM.no_error_bind
          (checkCoordinatorVolumeParams_no_multiAz o inp _) fun _ => ?_
        refine CallM.no_error_bind
          (checkDefaultWarehouseBlock_no_multiAz o inp _) fun _ => ?_
        exact checkWarehouseBlock_no_multiAz o inp _
  · rintro ⟨⟨feVm, hvm⟩, hnet⟩
    refine CallM.res_bind_error_of_ok
      ((getVmInfoChecked_res_ok_iff o _ _ feVm).mpr hvm) ?_
    exact CallM.res_bind_error_of_error
      ((checkNetworkMultiAz_multiAz_iff o _ _).mpr hnet)

theorem checkInstanceStoreConsistency_cons_some
    {vmMap : List (String × VMInfo)} {whName : String}
    {extInfo : WarehouseExternalInfo}
    {rest : List (String × WarehouseExternalInfo)} {vm : VMInfo}
    (h : vmMap.lookup whName = some vm) :
    checkInstanceStoreConsistency vmMap ((whName, extInfo) :: rest) =
      if extInfo.isInstanceStore ≠ vm.isInstanceStore then
        CallM.fail (DiffError.warehouseDiskTypeChanged whName)
      else checkInstanceStoreConsistency vmMap rest := by
  conv in checkInstanceStoreConsistency vmMap ((whName, extInfo) :: rest) =>
    rw [checkInstanceStoreConsistency]
  rw [h]

theorem checkInstanceStoreConsistency_cons_none
    {vmMap : List (String × VMInfo)} {whName : String}
    {extInfo : WarehouseExternalInfo}
    {rest : List (String × WarehouseExternalInfo)}
    (h : vmMap.lookup whName = none) :
    checkInstanceStoreConsistency vmMap ((whName, extInfo) :: rest) =
      checkInstanceStoreConsistency vmMap rest := by
  conv in checkInstanceStoreConsistency vmMap ((whName, extInfo) :: rest) =>
    rw [checkInstanceStoreConsistency]
  rw [h]

/-- The persisted-classification loop accepts exactly when every persisted
record whose warehouse appears in the declared-list catalogue map has an
unchanged instance-store classification. -/
theorem checkInstanceStoreConsistency_ok_iff
    (vmMap : List (String × VMInfo))
    (ext : List (String × WarehouseExternalInfo)) :
    (checkInstanceStoreConsistency vmMap ext).res = Except.ok () ↔
      ∀ p ∈ ext, ∀ vm, vmMap.lookup p.1 = some vm →
        p.2.isInstanceStore = vm.isInstanceStore := by
  induction ext with
  | nil =>
    simp [checkInstanceStoreConsistency, Pure.pure, CallM.pure, CallM.res]
  | cons p rest ih =>
    obtain ⟨whName, extInfo⟩ := p
    cases h : vmMap.lookup whName with
    | none =>
      rw [checkInstanceStoreConsistency_cons_none h, ih]
      constructor
      · intro hr q hq vm hvm
        rcases List.mem_cons.mp hq with rfl | hq2
        · rw [h] at hvm
          cases hvm
        · exact hr q hq2 vm hvm
      · intro hr q hq vm hvm
        exact hr q (List.mem_cons_of_mem _ hq) vm hvm
    | some vm =>
      rw [checkInstanceStoreConsistency_cons_some h]
      by_cases hm : extInfo.isInstanceStore ≠ vm.isInstanceStore
      · rw [if_pos hm]
        simp only [CallM.fail, CallM.res]
        constructor
        · intro habs
          cases habs
        · intro hr
          exact absurd (hr (whName, extInfo) (List.mem_cons_self _ _) vm h) hm
      · rw [if_neg hm]
        push_neg at hm
        rw [ih]
        constructor
        · intro hr q hq vm2 hvm2
          rcases List.mem_cons.mp hq with rfl | hq2
          · rw [h] at hvm2
            cases hvm2
            exact hm
          · exact hr q hq2 vm2 hvm2
        · intro hr q hq vm2 hvm2
          exact hr q (List.mem_cons_of_mem _ hq) vm2 hvm2

/-! ## Analysis of `updateWarehouse` -/

theorem CallM.bind_of_res_ok {ε α β : Type} {x : CallM ε α} {a : α}
    (f : α → CallM ε β) (h : x.res = Except.ok a) :
    CallM.bind x f = ((f a).1, x.trace ++ (f a).2) := by
  obtain ⟨r, t⟩ := x
  cases r with
  | error e => simp [CallM.res] at h
  | ok a2 =>
    simp only [CallM.res, Except.ok.injEq] at h
    subst h
    rfl

theorem CallM.trace_bind_of_ok {ε α β : Type} {x : CallM ε α} {a : α}
    (f : α → CallM ε β) (h : x.res = Except.ok a) :
    (CallM.bind x f).trace = x.trace ++ (f a).trace := by
  rw [CallM.bind_of_res_ok f h]
  rfl

theorem traceAll_pure {ε α : Type} (p : RemoteCall → Prop) (a : α) :
    TraceAll p (Pure.pure a : CallM ε α) := by
  intro c hc
  simp [CallM.trace, Pure.pure, CallM.pure] at hc

theorem traceAll_fail {ε α : Type} (p : RemoteCall → Prop) (e : ε) :
    TraceAll p (CallM.fail e : CallM ε α) := by
  intro c hc
  simp [CallM.trace, CallM.fail] at hc

theorem traceAll_emit {ε : Type} {p : RemoteCall → Prop} {c : RemoteCall}
    (h : p c) : TraceAll p (CallM.emit c : CallM ε Unit) := by
  intro d hd
  simp only [CallM.emit, CallM.trace, List.mem_singleton] at hd
  rw [hd]
  exact h

theorem traceAll_bind {ε α β : Type} {p : RemoteCall → Prop}
    {x : CallM ε α} {f : α → CallM ε β}
    (hx : TraceAll p x) (hf : ∀ a, TraceAll p (f a)) :
    TraceAll p (CallM.bind x f) := by
  intro c hc
  obtain ⟨r, t⟩ := x
  cases r with
  | error e =>
    rw [CallM.error_bind] at hc
    exact hx c hc
  | ok a =>
    rw [CallM.ok_bind] at hc
    simp only [CallM.trace, List.mem_append] at hc
    rcases hc with hc | hc
    · exact hx c hc
    · exact hf a c hc

theorem traceAll_ite {ε α : Type} {p : RemoteCall → Prop} (q : Prop)
    [Decidable q] {x y : CallM ε α} (hx : TraceAll p x) (hy : TraceAll p y) :
    TraceAll p (if q then x else y) := by
  by_cases h : q
  · rwa [if_pos h]
  · rwa [if_neg h]

/-- The distribution step never modifies a volume nor upserts config. -/
theorem distributionStep_no_volume_config (o : UpdateWhOracle) (whId : String)
    (oldP newP : WhParams) :
    TraceAll (fun c => isVolumeOrConfigCall c = false)
      (distributionStep o whId oldP newP) := by
  unfold distributionStep
  refine traceAll_ite _ ?_ (traceAll_pure _ _)
  refine traceAll_bind (traceAll_emit rfl) fun _ => ?_
  cases h : o.changeDistribution with
  | error msg => exact traceAll_fail _ _
  | ok a =>
    refine traceAll_bind (traceAll_emit rfl) fun _ => ?_
    cases h2 : o.distributionAwait with
    | waitError msg => exact traceAll_fail _ _
    | reached st msg =>
      exact traceAll_ite _ (traceAll_fail _ _) (traceAll_pure _ _)

/-- A successfully awaited node-size scale is exactly the scale call followed
by its wait. -/
theorem sizeStep_eq_of_success (whId : String) {o : UpdateWhOracle}
    {oldP newP : WhParams} {aid r : String} {st : ClusterState}
    (hchg : oldP.computeNodeSize ≠ newP.computeNodeSize)
    (hrpc : o.scaleSize = Except.ok aid)
    (haw : o.sizeAwait = AwaitResult.reached st r)
    (hst : st ≠ ClusterState.abnormal) :
    sizeStep o whId oldP newP =
      (Except.ok (),
        [RemoteCall.scaleWarehouseSize whId newP.computeNodeSize,
         RemoteCall.awaitClusterState scaleTargetStates]) := by
  simp only [sizeStep, if_pos hchg, hrpc, haw, CallM.emit_eq, CallM.ok_bind,
    if_neg hst, CallM.pure_eq]
  rfl

/-- A successfully awaited node-count scale is exactly the scale call
followed by its wait. -/
theorem numStep_eq_of_success (whId : String) {o : UpdateWhOracle}
    {oldP newP : WhParams} {aid r : String} {st : ClusterState}
    (hchg : oldP.computeNodeCount ≠ newP.computeNodeCount)
    (hrpc : o.scaleNum = Except.ok aid)
    (haw : o.numAwait = AwaitResult.reached st r)
    (hst : st ≠ ClusterState.abnormal) :
    numStep o whId oldP newP =
      (Except.ok (),
        [RemoteCall.scaleWarehouseNum whId newP.computeNodeCount,
         RemoteCall.awaitClusterState scaleTargetStates]) := by
  simp only [numStep, if_pos hchg, hrpc, haw, CallM.emit_eq, CallM.ok_bind,
    if_neg hst, CallM.pure_eq]
  rfl

/-- The `ModifyClusterVolume` sub-block never returns one of the two
validation errors. -/
theorem modifyVolumeCall_no_validation (o : UpdateWhOracle) (whId : String)
    (e : WhError) (h1 : e = WhError.volNumberChanged ∨ e = WhError.volSizeDecreased) :
    (modifyVolumeCall o whId).res ≠ Except.error e := by
  unfold modifyVolumeCall
  refine CallM.no_error_bind (CallM.emit_res_ne_error _ _) fun _ => ?_
  cases h : o.modifyVolume with
  | error msg =>
    rcases h1 with rfl | rfl <;> exact CallM.fail_res_ne (by simp)
  | ok actionId =>
    refine CallM.no_error_ite _ ?_ (CallM.pure_res_ne_error _ _)
    refine CallM.no_error_bind (CallM.emit_res_ne_error _ _) fun _ => ?_
    cases h2 : o.volumeAwait with
    | waitError msg =>
      rcases h1 with rfl | rfl <;> exact CallM.fail_res_ne (by simp)
    | reached st msg =>
      refine CallM.no_error_ite _ ?_ (CallM.pure_res_ne_error _ _)
      rcases h1 with rfl | rfl <;> exact CallM.fail_res_ne (by simp)

/-- The warehouse volume step rejects with `volNumberChanged` exactly when
the warehouse uses networked disks, the (defaulted) configs differ and the
disk count differs. -/
theorem volumeStep_volNumber_iff (o : UpdateWhOracle) (whId : String)
    (inst : Bool) (oldP newP : WhParams) :
    (volumeStep o whId inst oldP newP).res =
        Except.error WhError.volNumberChanged ↔
      (inst = false ∧ effectiveBeVolume oldP ≠ effectiveBeVolume newP ∧
        (effectiveBeVolume oldP).volNumber ≠
          (effectiveBeVolume newP).volNumber) := by
  unfold volumeStep
  by_cases h1 : inst = false ∧ effectiveBeVolume oldP ≠ effectiveBeVolume newP
  · rw [if_pos h1]
    by_cases h2 : (effectiveBeVolume oldP).volNumber ≠
        (effectiveBeVolume newP).volNumber
    · rw [if_pos h2]
      simp [CallM.fail, CallM.res, h1, h2]
    · rw [if_neg h2]
      by_cases h3 : (effectiveBeVolume newP).volSize <
          (effectiveBeVolume oldP).volSize
      · rw [if_pos h3]
        simp [CallM.fail, CallM.res, h2]
      · rw [if_neg h3]
        simp only [h2, and_false, iff_false]
        exact modifyVolumeCall_no_validation o whId _ (Or.inl rfl)
  · rw [if_neg h1]
    simp only [CallM.pure_eq, CallM.res_mk]
    constructor
    · intro h
      cases h
    · rintro ⟨ha, hb, hc⟩
      exact absurd ⟨ha, hb⟩ h1

/-- The warehouse volume step rejects with `volSizeDecreased` exactly when
the warehouse uses networked disks, the (defaulted) configs differ, the disk
count is unchanged and the new per-disk size is strictly smaller. -/
theorem volumeStep_volSize_iff (o : UpdateWhOracle) (whId : String)
    (inst : Bool) (oldP newP : WhParams) :
    (volumeStep o whId inst oldP newP).res =
        Except.error WhError.volSizeDecreased ↔
      (inst = false ∧ effectiveBeVolume oldP ≠ effectiveBeVolume newP ∧
        (effectiveBeVolume oldP).volNumber =
          (effectiveBeVolume newP).volNumber ∧
        (effectiveBeVolume newP).volSize <
          (effectiveBeVolume oldP).volSize) := by
  unfold volumeStep
  by_cases h1 : inst = false ∧ effectiveBeVolume oldP ≠ effectiveBeVolume newP
  · rw [if_pos h1]
    by_cases h2 : (effectiveBeVolume oldP).volNumber ≠
        (effectiveBeVolume newP).volNumber
    · rw [if_pos h2]
      simp [CallM.fail, CallM.res, h2]
    · rw [if_neg h2]
      push_neg at h2
      by_cases h3 : (effectiveBeVolume newP).volSize <
          (effectiveBeVolume oldP).volSize
      · rw [if_pos h3]
        simp [CallM.fail, CallM.res, h1, h2, h3]
      · rw [if_neg h3]
        simp only [h3, and_false, iff_false]
        exact modifyVolumeCall_no_validation o whId _ (Or.inr rfl)
  · rw [if_neg h1]
    simp only [CallM.pure_eq, CallM.res_mk]
    constructor
    · intro h
      cases h
    · rintro ⟨ha, hb, hc⟩
      exact absurd ⟨ha, hb⟩ h1

/-- The coordinator volume-resize check fails exactly when the config changed
on an existing resource and the new size is strictly smaller. -/
theorem checkCoordinatorVolResize_error_iff (inp : DiffInput) :
    (checkCoordinatorVolResize inp).res =
        Except.error DiffError.coordinatorVolSizeDecreased ↔
      (inp.coordinatorVolChanged = true ∧ inp.clusterId ≠ "" ∧
        (inp.coordinatorVolNew.getD DefaultFeVolumeMap).volSize <
          (inp.coordinatorVolOld.getD DefaultFeVolumeMap).volSize) := by
  unfold checkCoordinatorVolResize
  by_cases h1 : inp.coordinatorVolChanged = true ∧ inp.clusterId ≠ ""
  · rw [if_pos h1]
    by_cases h2 : (inp.coordinatorVolNew.getD DefaultFeVolumeMap).volSize <
        (inp.coordinatorVolOld.getD DefaultFeVolumeMap).volSize
    · rw [if_pos h2]
      simp [CallM.fail, CallM.res, h1, h2]
    · rw [if_neg h2]
      simp only [CallM.pure_eq, CallM.res_mk]
      constructor
      · intro h
        cases h
      · rintro ⟨-, -, hc⟩
        exact absurd hc h2
  · rw [if_neg h1]
    simp only [CallM.pure_eq, CallM.res_mk]
    constructor
    · intro h
      cases h
    · rintro ⟨ha, hb, -⟩
      exact absurd ⟨ha, hb⟩ h1

/-! ## Claims -/

/-- Claim C7: for all old and new named-warehouse lists keyed by name, the
diff of `resourceElasticClusterV2Update` classifies a name only in the new
list as added (a create is dispatched), a name only in the old list as
removed (a release is dispatched), and a name in both as modified (an
in-place update is dispatched); the three classes are disjoint, so a rename
is a remove of the old name plus an add of the new name, never a rename
operation. -/
theorem claim_C7_warehouse_diff_classification (old new : List WhParams)
    (n : String) :
    (WhDiffAction.createNew n ∈ warehouseDiffDispatch old new ↔
      (n ∈ new.map WhParams.name ∧ n ∉ old.map WhParams.name)) ∧
    (WhDiffAction.releaseRemoved n ∈ warehouseDiffDispatch old new ↔
      (n ∈ old.map WhParams.name ∧ n ∉ new.map WhParams.name)) ∧
    (WhDiffAction.updateExisting n ∈ warehouseDiffDispatch old new ↔
      (n ∈ new.map WhParams.name ∧ n ∈ old.map WhParams.name)) ∧
    ¬(WhDiffAction.createNew n ∈ warehouseDiffDispatch old new ∧
      WhDiffAction.updateExisting n ∈ warehouseDiffDispatch old new) ∧
    ¬(WhDiffAction.createNew n ∈ warehouseDiffDispatch old new ∧
      WhDiffAction.releaseRemoved n ∈ warehouseDiffDispatch old new) ∧
    ¬(WhDiffAction.updateExisting n ∈ warehouseDiffDispatch old new ∧
      WhDiffAction.releaseRemoved n ∈ warehouseDiffDispatch old new) := by
  refine ⟨mem_dispatch_createNew old new n, mem_dispatch_releaseRemoved old new n,
    mem_dispatch_updateExisting old new n, ?_, ?_, ?_⟩
  · rintro ⟨h1, h2⟩
    exact ((mem_dispatch_createNew old new n).mp h1).2
      ((mem_dispatch_updateExisting old new n).mp h2).2
  · rintro ⟨h1, h2⟩
    exact ((mem_dispatch_releaseRemoved old new n).mp h2).2
      ((mem_dispatch_createNew old new n).mp h1).1
  · rintro ⟨h1, h2⟩
    exact ((mem_dispatch_releaseRemoved old new n).mp h2).2
      ((mem_dispatch_updateExisting old new n).mp h1).1

/-- Witness for C7: renaming `etl` to `etl2` dispatches a release of `etl`
and a create of `etl2`, and no create of `etl`. -/
theorem claim_C7_warehouse_diff_classification_witness :
    WhDiffAction.releaseRemoved "etl" ∈
      warehouseDiffDispatch [sampleWh] [{ sampleWh with name := "etl2" }] ∧
    WhDiffAction.createNew "etl2" ∈
      warehouseDiffDispatch [sampleWh] [{ sampleWh with name := "etl2" }] ∧
    WhDiffAction.createNew "etl" ∉
      warehouseDiffDispatch [sampleWh] [{ sampleWh with name := "etl2" }] := by
  refine ⟨?_, ?_, ?_⟩
  · exact (claim_C7_warehouse_diff_classification _ _ "etl").2.1.mpr (by decide)
  · exact (claim_C7_warehouse_diff_classification _ _ "etl2").1.mpr (by decide)
  · intro h
    exact absurd ((claim_C7_warehouse_diff_classification _ _ "etl").1.mp h)
      (by decide)

/-- Claim C9: for every warehouse with a persisted external-info record, the
update validator rejects a declared compute node size whose instance-store
classification differs from the persisted one; it accepts exactly when every
such warehouse keeps its classification. -/
theorem claim_C9_disk_type_classification_immutable
    (vmMap : List (String × VMInfo))
    (ext : List (String × WarehouseExternalInfo)) :
    (checkInstanceStoreConsistency vmMap ext).res ≠ Except.ok () ↔
      ∃ p ∈ ext, ∃ vm, vmMap.lookup p.1 = some vm ∧
        p.2.isInstanceStore ≠ vm.isInstanceStore := by
  have h := checkInstanceStoreConsistency_ok_iff vmMap ext
  constructor
  · intro hne
    by_contra hno
    push_neg at hno
    exact hne (h.mpr hno)
  · rintro ⟨p, hp, vm, hvm, hmm⟩ hok
    exact hmm (h.mp hok p hp vm hvm)

/-- Witness for C9: a warehouse persisted as instance-store whose new size
is a networked-volume type is rejected. -/
theorem claim_C9_disk_type_classification_immutable_witness :
    (checkInstanceStoreConsistency
        [("etl", (⟨"x86_64", false, "gp3"⟩ : VMInfo))]
        [("etl", (⟨"wh-1", true, false⟩ : WarehouseExternalInfo))]).res ≠
      Except.ok () := by
  refine (claim_C9_disk_type_classification_immutable _ _).mpr ?_
  refine ⟨("etl", (⟨"wh-1", true, false⟩ : WarehouseExternalInfo)),
    by decide, ?_⟩
  exact ⟨(⟨"x86_64", false, "gp3"⟩ : VMInfo), by decide, by decide⟩

/-- Claim C5 (amended): warehouse-name validation fails exactly when an
entry is empty, equals the reserved default-warehouse name, contains a
hyphen, or when two entries share the same name after trimming surrounding
whitespace (the uniqueness pre-check counts trimmed names). -/
theorem claim_C5_warehouse_name_validation (names : List String) :
    warehouseNamesValidate names = true ↔
      ((∀ n ∈ names,
          ¬(n = "" ∨ n = DEFAULT_WAREHOUSE_NAME ∨ n.data.contains '-' = true)) ∧
        (names.map trimSpace).Nodup) := by
  unfold warehouseNamesValidate
  rw [Bool.and_eq_true, List.all_eq_true, duplicateWarehouseName_isNone_iff]
  constructor
  · rintro ⟨h1, h2⟩
    exact ⟨fun n hn => (warehouseNameCheck_isNone_iff n).mp (h1 n hn), h2⟩
  · rintro ⟨h1, h2⟩
    exact ⟨fun n hn => (warehouseNameCheck_isNone_iff n).mpr (h1 n hn), h2⟩

/-- Witness for C5: a list with an empty name, the reserved name, a
hyphenated name or a duplicate fails; a clean list passes. -/
theorem claim_C5_warehouse_name_validation_witness :
    warehouseNamesValidate ["etl", "adhoc"] = true ∧
      warehouseNamesValidate ["etl", "etl"] ≠ true ∧
      warehouseNamesValidate [""] ≠ true ∧
      warehouseNamesValidate ["default_warehouse"] ≠ true ∧
      warehouseNamesValidate ["etl-2"] ≠ true := by
  refine ⟨(claim_C5_warehouse_name_validation _).mpr ⟨?_, ?_⟩, ?_, ?_, ?_, ?_⟩
  · decide
  · decide
  · intro h
    exact absurd ((claim_C5_warehouse_name_validation _).mp h).2 (by decide)
  · intro h
    exact absurd (((claim_C5_warehouse_name_validation _).mp h).1 "" (by decide))
      (by decide)
  · intro h
    exact absurd (((claim_C5_warehouse_name_validation _).mp h).1
      "default_warehouse" (by decide)) (by decide)
  · intro h
    exact absurd (((claim_C5_warehouse_name_validation _).mp h).1 "etl-2"
      (by decide)) (by decide)

/-- Counterexample for C5 as stated: the entries `"a"` and `"a "` are
distinct names, each passes every per-name check, yet validation fails,
because the uniqueness check compares trimmed names. -/
theorem claim_C5_warehouse_name_validation_counterexample :
    warehouseNamesValidate ["a", "a "] = false ∧
      (∀ n ∈ (["a", "a "] : List String),
        (warehouseNameCheck n).isNone = true) ∧
      "a" ≠ "a " := by
  refine ⟨?_, ?_, ?_⟩ <;> decide

/-- Claim C2 (amended): a coordinator volume resize is rejected exactly when
the new size is strictly smaller than the old size, regardless of iops or
throughput changes; a warehouse compute-node volume change is additionally
rejected when the disk count changes (that check takes precedence), and its
size check rejects exactly a strict decrease when the disk count is
unchanged. -/
theorem claim_C2_volume_resize_validation (inp : DiffInput)
    (o : UpdateWhOracle) (whId : String) (inst : Bool)
    (oldP newP : WhParams) :
    ((checkCoordinatorVolResize inp).res =
        Except.error DiffError.coordinatorVolSizeDecreased ↔
      (inp.coordinatorVolChanged = true ∧ inp.clusterId ≠ "" ∧
        (inp.coordinatorVolNew.getD DefaultFeVolumeMap).volSize <
          (inp.coordinatorVolOld.getD DefaultFeVolumeMap).volSize)) ∧
    ((volumeStep o whId inst oldP newP).res =
        Except.error WhError.volNumberChanged ↔
      (inst = false ∧ effectiveBeVolume oldP ≠ effectiveBeVolume newP ∧
        (effectiveBeVolume oldP).volNumber ≠
          (effectiveBeVolume newP).volNumber)) ∧
    ((volumeStep o whId inst oldP newP).res =
        Except.error WhError.volSizeDecreased ↔
      (inst = false ∧ effectiveBeVolume oldP ≠ effectiveBeVolume newP ∧
        (effectiveBeVolume oldP).volNumber =
          (effectiveBeVolume newP).volNumber ∧
        (effectiveBeVolume newP).volSize <
          (effectiveBeVolume oldP).volSize)) :=
  ⟨checkCoordinatorVolResize_error_iff inp,
    volumeStep_volNumber_iff o whId inst oldP newP,
    volumeStep_volSize_iff o whId inst oldP newP⟩

/-- Counterexample for C2 as stated: a warehouse volume change that keeps
the per-disk size equal (no decrease) but changes the disk count from 2 to 3
is rejected, so validation does not fail only on `newSize < oldSize`. -/
theorem claim_C2_volume_resize_validation_counterexample :
    (volumeStep sampleWhOracle "wh-1" false sampleWh sampleWhVolNum3).res =
      Except.error WhError.volNumberChanged ∧
    ¬((effectiveBeVolume sampleWhVolNum3).volSize <
      (effectiveBeVolume sampleWh).volSize) := by
  refine ⟨rfl, by decide⟩
/-- Claim C3: validation of a create or update fails with the multi-AZ
coordinator-count error exactly when the referenced network is multi-AZ and
the coordinator node count is below 3: in `customizeEl2Diff` (given that the
coordinator catalogue lookup succeeds and a network id is configured) and in
the pre-deploy check of `resourceElasticClusterV2Create`. -/
theorem claim_C3_multiAz_coordinator_floor (o : DiffOracle) (inp : DiffInput)
    (oc : CreateOracle) (cinp : CreateInput) :
    ((customizeEl2Diff o inp).res =
        Except.error DiffError.multiAzCoordinatorCountTooSmall ↔
      ((∃ feVm, o.vmInfo "FE" inp.coordinatorNodeSize =
          VmLookupResult.found feVm) ∧
        inp.networkId ≠ "" ∧
        ∃ net, o.network inp.networkId = some net ∧
          net.multiAz = true ∧ inp.coordinatorNodeCount < 3)) ∧
    ((resourceElasticClusterV2CreateCore oc cinp).outcome =
        CreateOutcome.validationMultiAzError ↔
      ∃ net, oc.network cinp.networkId = some net ∧
        net.multiAz = true ∧ cinp.coordinatorNodeCount < 3) := by
  refine ⟨customizeEl2Diff_multiAz_iff o inp, ?_⟩
  unfold resourceElasticClusterV2CreateCore
  cases h : oc.network cinp.networkId with
  | none => simp [h]
  | some net =>
    by_cases hc : net.multiAz = true ∧ cinp.coordinatorNodeCount < 3
    · simp [h, hc]
    · cases hd : oc.deploy with
      | none => simp [h, hc]
      | some dr =>
        cases ha : oc.deployAwait with
        | waitError msg => simp [h, hc]
        | reached st reason =>
          by_cases hst : st = ClusterState.abnormal
          · simp [h, hc, hst]
          · simp [h, hc, hst]

/-- Witness for C3: with a multi-AZ network and one coordinator node both
the validator and the create path reject; with three nodes both accept. -/
theorem claim_C3_multiAz_coordinator_floor_witness :
    ((resourceElasticClusterV2CreateCore
        { network := fun _ => some { multiAz := true },
          deploy := none,
          deployAwait := AwaitResult.reached ClusterState.running "" }
        { networkId := "net-1", coordinatorNodeCount := 1 }).outcome =
      CreateOutcome.validationMultiAzError) ∧
    ((resourceElasticClusterV2CreateCore
        { network := fun _ => some { multiAz := true },
          deploy := none,
          deployAwait := AwaitResult.reached ClusterState.running "" }
        { networkId := "net-1", coordinatorNodeCount := 3 }).outcome ≠
      CreateOutcome.validationMultiAzError) := by
  constructor
  · exact (claim_C3_multiAz_coordinator_floor
      { vmInfo := fun _ _ => VmLookupResult.missing,
        network := fun _ => none,
        volumeParamFe := fun _ _ => true,
        volumeParamBe := fun _ _ => true }
      { clusterId := "", networkId := "", coordinatorNodeSize := "",
        coordinatorNodeSizeOld := "", coordinatorNodeSizeChanged := false,
        coordinatorNodeCount := 1, coordinatorVolChanged := false,
        coordinatorVolOld := none, coordinatorVolNew := none,
        defaultWarehouse := sampleWh, warehouses := [],
        defaultWarehouseChanged := false, warehouseChanged := false,
        warehouseExternalInfo := [] }
      _ _).2.mpr ⟨{ multiAz := true }, rfl, rfl, by decide⟩
  · intro h
    have := (claim_C3_multiAz_coordinator_floor
      { vmInfo := fun _ _ => VmLookupResult.missing,
        network := fun _ => none,
        volumeParamFe := fun _ _ => true,
        volumeParamBe := fun _ _ => true }
      { clusterId := "", networkId := "", coordinatorNodeSize := "",
        coordinatorNodeSizeOld := "", coordinatorNodeSizeChanged := false,
        coordinatorNodeCount := 1, coordinatorVolChanged := false,
        coordinatorVolOld := none, coordinatorVolNew := none,
        defaultWarehouse := sampleWh, warehouses := [],
        defaultWarehouseChanged := false, warehouseChanged := false,
        warehouseExternalInfo := [] }
      _ _).2.mp h
    rcases this with ⟨net, hnet, -, hcnt⟩
    cases hnet
    exact absurd hcnt (by decide)

/-- Claim C4: the precondition validator issues only read-only remote calls
(catalogue, network and volume-parameter queries), so a validation failure
leaves remote cluster state unchanged; and on the create path the pre-deploy
validation runs strictly before the deploy dispatch: when it fails, the
trace contains no mutating call. -/
theorem claim_C4_validation_before_dispatch (o : DiffOracle) (inp : DiffInput)
    (oc : CreateOracle) (cinp : CreateInput) :
    (∀ c ∈ (customizeEl2Diff o inp).trace, c.isMutating = false) ∧
    (((resourceElasticClusterV2CreateCore oc cinp).outcome =
        CreateOutcome.networkError ∨
      (resourceElasticClusterV2CreateCore oc cinp).outcome =
        CreateOutcome.validationMultiAzError) →
      ∀ c ∈ (resourceElasticClusterV2CreateCore oc cinp).trace,
        c.isMutating = false) := by
  refine ⟨customizeEl2Diff_readOnly o inp, ?_⟩
  unfold resourceElasticClusterV2CreateCore
  cases h : oc.network cinp.networkId with
  | none =>
    intro _
    simp [RemoteCall.isMutating]
  | some net =>
    by_cases hc : net.multiAz = true ∧ cinp.coordinatorNodeCount < 3
    · intro _
      simp [hc, RemoteCall.isMutating]
    · cases hd : oc.deploy with
      | none => simp [hc]
      | some dr =>
        cases ha : oc.deployAwait with
        | waitError msg => simp [hc]
        | reached st reason =>
          by_cases hst : st = ClusterState.abnormal
          · simp [hc, hst]
          · simp [hc, hst]

/-- Witness for C4: a failing multi-AZ validation on the create path issues
only the network read. -/
theorem claim_C4_validation_before_dispatch_witness :
    ∀ c ∈ (resourceElasticClusterV2CreateCore
        { network := fun _ => some { multiAz := true },
          deploy := none,
          deployAwait := AwaitResult.reached ClusterState.running "" }
        { networkId := "net-1", coordinatorNodeCount := 1 }).trace,
      c.isMutating = false := by
  refine (claim_C4_validation_before_dispatch
    { vmInfo := fun _ _ => VmLookupResult.missing,
      network := fun _ => none,
      volumeParamFe := fun _ _ => true,
      volumeParamBe := fun _ _ => true }
    { clusterId := "", networkId := "", coordinatorNodeSize := "",
      coordinatorNodeSizeOld := "", coordinatorNodeSizeChanged := false,
      coordinatorNodeCount := 1, coordinatorVolChanged := false,
      coordinatorVolOld := none, coordinatorVolNew := none,
      defaultWarehouse := sampleWh, warehouses := [],
      defaultWarehouseChanged := false, warehouseChanged := false,
      warehouseExternalInfo := [] }
    _ _).2 (Or.inr ?_)
  rfl
/-- Claim C6: when an update changes `idle_suspend_interval`, exactly one
idle-config call is issued; its enable state is `new > 0` and its interval
is the new value when enabling and the old value when disabling (converted
to milliseconds), so going from a positive `v` to `0` sends
`state = false` with interval `v * 60 * 1000`, and going to a positive `n`
sends `state = true` with interval `n * 60 * 1000`. -/
theorem claim_C6_idle_suspend_interval_update (o : UpdateOracle)
    (inp : UpdateInput) (st : ClusterState) (r : String)
    (hfind : immutableFields.find?
      (fun f => inp.hasChange f && !inp.isNewResource) = none)
    (hawait : o.initialAwait = AwaitResult.reached st r)
    (h1 : st ≠ ClusterState.released) (h2 : st ≠ ClusterState.abnormal)
    (hchg : inp.hasChange "idle_suspend_interval" = true)
    (hnew : inp.isNewResource = false) :
    (resourceElasticClusterV2UpdateCore o inp).trace.filter isIdleConfigCall =
      [RemoteCall.updateIdleConfig inp.clusterId
        ((if 0 < inp.idleSuspendIntervalNew then inp.idleSuspendIntervalNew
          else inp.idleSuspendIntervalOld) * 60 * 1000)
        (decide (0 < inp.idleSuspendIntervalNew))] := by
  unfold resourceElasticClusterV2UpdateCore
  rw [hfind]
  simp only [hawait]
  rw [if_neg h1, if_neg h2]
  simp only [hchg, hnew, Bool.not_false, Bool.and_self, if_true]
  cases hi : o.idleConfig with
  | some msg => simp [isIdleConfigCall]
  | none => simp [isIdleConfigCall]

/-- Witness for C6: disabling (30 to 0) sends `state = false` with the old
interval of 30 minutes in milliseconds. -/
theorem claim_C6_idle_suspend_interval_update_witness :
    (resourceElasticClusterV2UpdateCore
        { initialAwait := AwaitResult.reached ClusterState.running "",
          idleConfig := none }
        { clusterId := "cl-3", isNewResource := false,
          hasChange := fun f => f == "idle_suspend_interval",
          idleSuspendIntervalOld := 30,
          idleSuspendIntervalNew := 0 }).trace.filter isIdleConfigCall =
      [RemoteCall.updateIdleConfig "cl-3" 1800000 false] := by
  have h := claim_C6_idle_suspend_interval_update
    { initialAwait := AwaitResult.reached ClusterState.running "",
      idleConfig := none }
    { clusterId := "cl-3", isNewResource := false,
      hasChange := fun f => f == "idle_suspend_interval",
      idleSuspendIntervalOld := 30, idleSuspendIntervalNew := 0 }
    ClusterState.running "" rfl rfl (by decide) (by decide) rfl rfl
  exact h.trans (by decide)

/-- Claim C10: any update that changes one of the eight immutable fields
(`csp`, `region`, `cluster_name`, `default_admin_password`,
`data_credential_id`, `deployment_credential_id`, `network_id`,
`query_port`) on an existing resource is rejected before any state is
awaited or any remote call is made. -/
theorem claim_C10_immutable_fields_rejected (o : UpdateOracle)
    (inp : UpdateInput) (f : String) (hf : f ∈ immutableFields)
    (hchg : inp.hasChange f = true) (hnew : inp.isNewResource = false) :
    immutableFields = ["csp", "region", "cluster_name",
      "default_admin_password", "data_credential_id",
      "deployment_credential_id", "network_id", "query_port"] ∧
    (resourceElasticClusterV2UpdateCore o inp).trace = [] ∧
    ∃ g, (resourceElasticClusterV2UpdateCore o inp).outcome =
      UpdateOutcome.immutableFieldError g := by
  refine ⟨rfl, ?_⟩
  have hsome : (immutableFields.find?
      (fun x => inp.hasChange x && !inp.isNewResource)).isSome := by
    rw [List.find?_isSome]
    exact ⟨f, hf, by simp [hchg, hnew]⟩
  obtain ⟨g, hg⟩ := Option.isSome_iff_exists.mp hsome
  unfold resourceElasticClusterV2UpdateCore
  rw [hg]
  exact ⟨rfl, g, rfl⟩

/-- Witness for C10: changing `region` on an existing resource yields an
empty trace and an immutable-field error. -/
theorem claim_C10_immutable_fields_rejected_witness :
    immutableFields = ["csp", "region", "cluster_name",
      "default_admin_password", "data_credential_id",
      "deployment_credential_id", "network_id", "query_port"] ∧
    (resourceElasticClusterV2UpdateCore
        { initialAwait := AwaitResult.reached ClusterState.running "",
          idleConfig := none }
        { clusterId := "cl-4", isNewResource := false,
          hasChange := fun f => f == "region",
          idleSuspendIntervalOld := 0,
          idleSuspendIntervalNew := 0 }).trace = [] ∧
    ∃ g, (resourceElasticClusterV2UpdateCore
        { initialAwait := AwaitResult.reached ClusterState.running "",
          idleConfig := none }
        { clusterId := "cl-4", isNewResource := false,
          hasChange := fun f => f == "region",
          idleSuspendIntervalOld := 0,
          idleSuspendIntervalNew := 0 }).outcome =
      UpdateOutcome.immutableFieldError g :=
  claim_C10_immutable_fields_rejected
    { initialAwait := AwaitResult.reached ClusterState.running "",
      idleConfig := none }
    { clusterId := "cl-4", isNewResource := false,
      hasChange := fun f => f == "region",
      idleSuspendIntervalOld := 0, idleSuspendIntervalNew := 0 }
    "region" (by decide) (by decide) rfl
/-- Claim C1 (amended): when an operation ends in the `abnormal` terminal
state, it surfaces the remote-reported abnormal reason as its error; the
persisted cluster identity is cleared on the delete path and on the create
path, and is kept only on the update path. -/
theorem claim_C1_abnormal_terminal_handling (oc : CreateOracle)
    (cinp : CreateInput) (ou : UpdateOracle) (uinp : UpdateInput)
    (od : DeleteOracle) (cid : String) (net : NetworkInfo)
    (dr : DeployResult) (reason r1 r2 : String) :
    ((oc.network cinp.networkId = some net →
      ¬(net.multiAz = true ∧ cinp.coordinatorNodeCount < 3) →
      oc.deploy = some dr →
      oc.deployAwait = AwaitResult.reached ClusterState.abnormal reason →
      (resourceElasticClusterV2CreateCore oc cinp).persistedId = "" ∧
        (resourceElasticClusterV2CreateCore oc cinp).outcome =
          CreateOutcome.abnormalError reason)) ∧
    ((immutableFields.find?
        (fun f => uinp.hasChange f && !uinp.isNewResource) = none →
      ou.initialAwait = AwaitResult.reached ClusterState.abnormal r1 →
      (resourceElasticClusterV2UpdateCore ou uinp).persistedId =
          uinp.clusterId ∧
        (resourceElasticClusterV2UpdateCore ou uinp).outcome =
          UpdateOutcome.abnormalError r1)) ∧
    (∀ st0 rs0 aid, od.initialAwait = AwaitResult.reached st0 rs0 →
      od.release = some aid →
      od.releaseAwait = AwaitResult.reached ClusterState.abnormal r2 →
      (resourceElasticClusterV2DeleteCore od cid).persistedId = "" ∧
        (resourceElasticClusterV2DeleteCore od cid).outcome =
          DeleteOutcome.releaseAbnormalError r2) := by
  refine ⟨?_, ?_, ?_⟩
  · intro hn hv hd ha
    unfold resourceElasticClusterV2CreateCore
    rw [hn]
    simp only [hd, ha]
    rw [if_neg hv]
    simp
  · intro hfind ha
    unfold resourceElasticClusterV2UpdateCore
    rw [hfind]
    simp only [ha]
    rw [if_neg (by decide : ClusterState.abnormal ≠ ClusterState.released)]
    simp
  · intro st0 rs0 aid h0 hr ha
    unfold resourceElasticClusterV2DeleteCore
    simp only [h0, hr, ha]
    simp

/-- Witness for C1 (amended): concrete abnormal runs of the three paths. -/
theorem claim_C1_abnormal_terminal_handling_witness :
    ((resourceElasticClusterV2CreateCore
        { network := fun _ => some { multiAz := false },
          deploy := some sampleDeploy,
          deployAwait := AwaitResult.reached ClusterState.abnormal "boom" }
        { networkId := "net-1", coordinatorNodeCount := 3 }).persistedId =
        "" ∧
      (resourceElasticClusterV2CreateCore
        { network := fun _ => some { multiAz := false },
          deploy := some sampleDeploy,
          deployAwait := AwaitResult.reached ClusterState.abnormal "boom" }
        { networkId := "net-1", coordinatorNodeCount := 3 }).outcome =
        CreateOutcome.abnormalError "boom") ∧
    ((resourceElasticClusterV2UpdateCore
        { initialAwait := AwaitResult.reached ClusterState.abnormal "sick",
          idleConfig := none }
        { clusterId := "cl-2", isNewResource := false,
          hasChange := fun _ => false, idleSuspendIntervalOld := 0,
          idleSuspendIntervalNew := 0 }).persistedId = "cl-2" ∧
      (resourceElasticClusterV2UpdateCore
        { initialAwait := AwaitResult.reached ClusterState.abnormal "sick",
          idleConfig := none }
        { clusterId := "cl-2", isNewResource := false,
          hasChange := fun _ => false, idleSuspendIntervalOld := 0,
          idleSuspendIntervalNew := 0 }).outcome =
        UpdateOutcome.abnormalError "sick") ∧
    ((resourceElasticClusterV2DeleteCore
        { initialAwait := AwaitResult.reached ClusterState.running "",
          release := some "act-9",
          releaseAwait := AwaitResult.reached ClusterState.abnormal "stuck" }
        "cl-5").persistedId = "" ∧
      (resourceElasticClusterV2DeleteCore
        { initialAwait := AwaitResult.reached ClusterState.running "",
          release := some "act-9",
          releaseAwait := AwaitResult.reached ClusterState.abnormal "stuck" }
        "cl-5").outcome = DeleteOutcome.releaseAbnormalError "stuck") := by
  have h := claim_C1_abnormal_terminal_handling
    { network := fun _ => some { multiAz := false },
      deploy := some sampleDeploy,
      deployAwait := AwaitResult.reached ClusterState.abnormal "boom" }
    { networkId := "net-1", coordinatorNodeCount := 3 }
    { initialAwait := AwaitResult.reached ClusterState.abnormal "sick",
      idleConfig := none }
    { clusterId := "cl-2", isNewResource := false,
      hasChange := fun _ => false, idleSuspendIntervalOld := 0,
      idleSuspendIntervalNew := 0 }
    { initialAwait := AwaitResult.reached ClusterState.running "",
      release := some "act-9",
      releaseAwait := AwaitResult.reached ClusterState.abnormal "stuck" }
    "cl-5" { multiAz := false } sampleDeploy "boom" "sick" "stuck"
  exact ⟨h.1 rfl (by decide) rfl rfl, h.2.1 rfl rfl,
    h.2.2 ClusterState.running "" "act-9" rfl rfl rfl⟩

/-- Counterexample for C1 as stated: an abnormal deploy on the create path
clears the persisted identity (`d.SetId("")`), even though the deploy had
returned the non-empty cluster id `cl-1`; the claim says the create path
leaves the identity in place. -/
theorem claim_C1_abnormal_terminal_handling_counterexample :
    (resourceElasticClusterV2CreateCore
        { network := fun _ => some { multiAz := false },
          deploy := some sampleDeploy,
          deployAwait := AwaitResult.reached ClusterState.abnormal "boom" }
        { networkId := "net-1", coordinatorNodeCount := 3 }).persistedId =
      "" ∧ ("cl-1" : String) ≠ "" := by
  exact ⟨rfl, by decide⟩
/-- Claim C8: a warehouse update that changes both the compute node size and
the compute node count issues `scaleWarehouseSize` first -- immediately
followed by its `running`/`abnormal` wait -- then `scaleWarehouseNum` with
its wait, and only after both does the rest of the operation (which contains
every volume modification and custom-config upsert) run; the preceding
distribution segment contains no volume or config call. -/
theorem claim_C8_scale_size_before_num (o : UpdateWhOracle)
    (ext : WarehouseExternalInfo) (oldP newP : WhParams)
    (aid1 aid2 r1 r2 : String) (st1 st2 : ClusterState)
    (hsize : oldP.computeNodeSize ≠ newP.computeNodeSize)
    (hnum : oldP.computeNodeCount ≠ newP.computeNodeCount)
    (hdist : (distributionStep o ext.id oldP newP).res = Except.ok ())
    (hrpc1 : o.scaleSize = Except.ok aid1)
    (haw1 : o.sizeAwait = AwaitResult.reached st1 r1)
    (hst1 : st1 ≠ ClusterState.abnormal)
    (hrpc2 : o.scaleNum = Except.ok aid2)
    (haw2 : o.numAwait = AwaitResult.reached st2 r2)
    (hst2 : st2 ≠ ClusterState.abnormal) :
    (updateWarehouse o ext oldP newP).trace =
      (distributionStep o ext.id oldP newP).trace ++
        ([RemoteCall.scaleWarehouseSize ext.id newP.computeNodeSize,
          RemoteCall.awaitClusterState scaleTargetStates,
          RemoteCall.scaleWarehouseNum ext.id newP.computeNodeCount,
          RemoteCall.awaitClusterState scaleTargetStates] ++
          (updateWarehouseRest o ext oldP newP).trace) ∧
      (∀ c ∈ (distributionStep o ext.id oldP newP).trace,
        isVolumeOrConfigCall c = false) := by
  refine ⟨?_, distributionStep_no_volume_config o ext.id oldP newP⟩
  have hs := sizeStep_eq_of_success ext.id hsize hrpc1 haw1 hst1
  have hn := numStep_eq_of_success ext.id hnum hrpc2 haw2 hst2
  unfold updateWarehouse
  rw [CallM.trace_bind_of_ok _ hdist]
  congr 1
  rw [hs, CallM.ok_bind, CallM.trace_mk]
  rw [hn, CallM.ok_bind]
  simp [CallM.trace]

/-- Witness for C8: a concrete both-changed update produces exactly the
scale-size call, its wait, the scale-num call, its wait, then the rest. -/
theorem claim_C8_scale_size_before_num_witness :
    (updateWarehouse sampleWhOracle sampleExt sampleWh sampleWhScaled).trace =
      (distributionStep sampleWhOracle sampleExt.id sampleWh
          sampleWhScaled).trace ++
        ([RemoteCall.scaleWarehouseSize sampleExt.id "m6.xlarge",
          RemoteCall.awaitClusterState scaleTargetStates,
          RemoteCall.scaleWarehouseNum sampleExt.id 5,
          RemoteCall.awaitClusterState scaleTargetStates] ++
          (updateWarehouseRest sampleWhOracle sampleExt sampleWh
            sampleWhScaled).trace) ∧
      (∀ c ∈ (distributionStep sampleWhOracle sampleExt.id sampleWh
          sampleWhScaled).trace,
        isVolumeOrConfigCall c = false) := by
  have h := claim_C8_scale_size_before_num sampleWhOracle sampleExt sampleWh
    sampleWhScaled "act-1" "act-2" "" "" ClusterState.running
    ClusterState.running (by decide) (by decide) rfl rfl rfl (by decide)
    rfl rfl (by decide)
  exact h
end CelerdataByoc
